import Mathlib

/-!
Verification of the asynchronous provisioning orchestrator of the
Infra-provisioner repository (`celery_app/tasks/terraform_tasks.py`, as
excerpted line by line in `src/SECURITY_ANALYSIS.md`).

The embedding models the external terraform CLI as an oracle
(`ToolBehavior`), the request store as a partial map from ids to requests,
the filesystem as a list of directories and files, and side effects
(log lines, workspace creation, file writes, tool invocations, directory
removal) as an explicit event trace.
-/

/-- Python `string.ascii_letters`. -/
def asciiLetters : String := "abcdefghijklmnopqrstuvwxyzABCDEFGHIJKLMNOPQRSTUVWXYZ"

/-- Python `string.digits`. -/
def asciiDigits : String := "0123456789"

/-- The alphabet `string.ascii_letters + string.digits` used by
`_generate_password` (terraform_tasks.py line 95). -/
def passwordAlphabet : String := asciiLetters ++ asciiDigits

/-- `_generate_password(length=16)` (terraform_tasks.py lines 94-96):
`''.join(secrets.choice(alphabet) for _ in range(length))`.
The CSPRNG `secrets.choice` is modelled by an oracle `rng`; the i-th draw
picks index `rng i % |alphabet|` of the alphabet. -/
def generatePassword (rng : Nat → Nat) (length : Nat := 16) : String :=
  ⟨(List.range length).map
    (fun i => passwordAlphabet.data.getD (rng i % passwordAlphabet.data.length) 'a')⟩

/-- Decimal digit character, mirroring how Python `f"{request_id}"` renders
one digit of the integer id. -/
def digitChar (n : Nat) : Char :=
  match n with
  | 0 => '0' | 1 => '1' | 2 => '2' | 3 => '3' | 4 => '4'
  | 5 => '5' | 6 => '6' | 7 => '7' | 8 => '8' | 9 => '9'
  | _ => '*'

/-- Decimal digit list, fuel-driven so that it reduces definitionally;
`fuel` bounds the number of digits. -/
def natDigitsAux : Nat → Nat → List Char
  | 0, _ => []
  | fuel + 1, n =>
    if n < 10 then [digitChar n]
    else natDigitsAux fuel (n / 10) ++ [digitChar (n % 10)]

/-- Decimal digit list of a natural number, most significant first:
the character sequence Python's `f"{request_id}"` produces for the id
(`n + 1` is always enough fuel, since a number has at most as many digits
as its value). -/
def natDigits (n : Nat) : List Char := natDigitsAux (n + 1) n

/-- Decimal rendering of a natural number as a string (Python str of an int). -/
def natDecimal (n : Nat) : String := ⟨natDigits n⟩

/-- Python slicing `s[:n]` on a string (used as `plan_result['output'][:2000]`
at terraform_tasks.py line 344). -/
def strTake (n : Nat) (s : String) : String := ⟨s.data.take n⟩

/-- Result of one `subprocess.run(["terraform", ...])` invocation. -/
inductive ToolOutcome where
  | completed (returncode : Nat) (stdout stderr : String)
  | timedOut
  | notFound
deriving Repr, DecidableEq

/-- Filesystem state: existing workspace directories and written files. -/
structure FS where
  dirs : List String := []
  files : List (String × String) := []
deriving Repr, DecidableEq

/-- The external terraform CLI as a black box: its outcome may depend on the
filesystem contents, the working directory and the command line. -/
def ToolBehavior : Type := FS → String → List String → ToolOutcome

/-- Observable side effects of a provisioning or destroy attempt. -/
inductive Event where
  | logged (message : String)
  | mkdirWorkspace (path : String)
  | fileWritten (path : String) (content : String)
  | toolInvoked (workspaceDir : String) (command : List String)
  | rmtree (path : String)
deriving Repr, DecidableEq

/-- The `{"success": ..., "output"/"error": ...}` dict returned by the
generators, `_run_terraform` and `_run_terraform_workflow`. Absent keys
(read through `.get(k, '')`) default to the empty string. -/
structure GenResult where
  success : Bool
  output : String := ""
  error : String := ""
deriving Repr, DecidableEq

/-- Python `' '.join(command)`. -/
def joinArgs : List String → String
  | [] => ""
  | [a] => a
  | a :: b :: rest => a ++ " " ++ joinArgs (b :: rest)

/-- `_run_terraform(workspace_dir, command)` (terraform_tasks.py lines
362-384): invoke the tool, classify the outcome. A non-zero exit returns
`result.stderr or result.stdout`; a timeout and a missing binary are caught
and turned into fixed error strings. -/
def runTerraform (tool : ToolBehavior) (fs : FS) (workspaceDir : String)
    (command : List String) : GenResult × List Event :=
  let pre := [Event.logged ("Running: terraform " ++ joinArgs command),
              Event.toolInvoked workspaceDir command]
  match tool fs workspaceDir command with
  | .completed rc out err =>
    if rc = 0 then
      ({ success := true, output := out },
       pre ++ [Event.logged "Terraform command succeeded"])
    else
      ({ success := false, error := if err = "" then out else err },
       pre ++ [Event.logged ("Terraform command failed: " ++ err)])
  | .timedOut =>
      ({ success := false, error := "Terraform command timed out after 10 minutes" }, pre)
  | .notFound =>
      ({ success := false, error := "Terraform CLI not found. Please install Terraform." },
       pre ++ [Event.logged "Terraform not found"])

def initCmd : List String := ["init", "-no-color"]
def planCmd : List String := ["plan", "-no-color", "-out=tfplan"]
def applyCmd : List String := ["apply", "-no-color", "-auto-approve", "tfplan"]
def outputCmd : List String := ["output", "-json"]
def destroyCmd : List String := ["destroy", "-no-color", "-auto-approve"]

/-- A decoded Python value as produced by `json.loads`. -/
inductive PyJson where
  | pynull
  | pybool (b : Bool)
  | pyint (n : Int)
  | pyfloat (raw : String)
  | pystr (s : String)
  | pylist (xs : List PyJson)
  | pydict (kvs : List (String × PyJson))

/-- Value of one hexadecimal digit, for `\uXXXX` escapes. -/
def hexDigitVal (c : Char) : Option Nat :=
  if '0' ≤ c ∧ c ≤ '9' then some (c.toNat - 48)
  else if 'a' ≤ c ∧ c ≤ 'f' then some (c.toNat - 87)
  else if 'A' ≤ c ∧ c ≤ 'F' then some (c.toNat - 55)
  else none

/-- Skip JSON whitespace, as `json.loads` does between tokens. -/
def skipJsonWs : List Char → List Char
  | [] => []
  | c :: rest =>
    if c == ' ' || c == Char.ofNat 9 || c == Char.ofNat 10 || c == Char.ofNat 13 then
      skipJsonWs rest
    else c :: rest

/-- Parse a JSON string body (the opening quote already consumed), decoding
the JSON escapes exactly as `json.loads` does: `\"`, `\\`, `\/`, `\b`,
`\f`, `\n`, `\r`, `\t` and `\uXXXX`, combining a high/low surrogate
pair into one code point. Unescaped control characters are rejected, as in
Python's strict mode. -/
def parseJsonString : Nat → List Char → Option (String × List Char)
  | 0, _ => none
  | _ + 1, [] => none
  | fuel + 1, c :: rest =>
    let cont : Char → List Char → Option (String × List Char) := fun ch r =>
      match parseJsonString fuel r with
      | some (s, r2) => some (⟨ch :: s.data⟩, r2)
      | none => none
    if c == '"' then some ("", rest)
    else if c == Char.ofNat 92 then
      match rest with
      | [] => none
      | e :: rest2 =>
        if e == '"' then cont '"' rest2
        else if e == Char.ofNat 92 then cont (Char.ofNat 92) rest2
        else if e == '/' then cont '/' rest2
        else if e == 'b' then cont (Char.ofNat 8) rest2
        else if e == 'f' then cont (Char.ofNat 12) rest2
        else if e == 'n' then cont (Char.ofNat 10) rest2
        else if e == 'r' then cont (Char.ofNat 13) rest2
        else if e == 't' then cont (Char.ofNat 9) rest2
        else if e == 'u' then
          match rest2 with
          | h1 :: h2 :: h3 :: h4 :: rest3 =>
            match hexDigitVal h1, hexDigitVal h2, hexDigitVal h3, hexDigitVal h4 with
            | some a, some b, some cdig, some d =>
              let cp := ((a * 16 + b) * 16 + cdig) * 16 + d
              if 0xD800 ≤ cp ∧ cp ≤ 0xDBFF then
                match rest3 with
                | b1 :: b2 :: g1 :: g2 :: g3 :: g4 :: rest4 =>
                  if b1 == Char.ofNat 92 && b2 == 'u' then
                    match hexDigitVal g1, hexDigitVal g2, hexDigitVal g3, hexDigitVal g4 with
                    | some a2, some b2v, some c2, some d2 =>
                      let cp2 := ((a2 * 16 + b2v) * 16 + c2) * 16 + d2
                      if 0xDC00 ≤ cp2 ∧ cp2 ≤ 0xDFFF then
                        cont (Char.ofNat
                          (0x10000 + (cp - 0xD800) * 0x400 + (cp2 - 0xDC00))) rest4
                      else cont (Char.ofNat cp) rest3
                    | _, _, _, _ => cont (Char.ofNat cp) rest3
                  else cont (Char.ofNat cp) rest3
                | _ => cont (Char.ofNat cp) rest3
              else cont (Char.ofNat cp) rest3
            | _, _, _, _ => none
          | _ => none
        else none
    else if c.toNat < 32 then none
    else cont c rest

/-- Leading decimal digits of a character list. -/
def takeDigits : List Char → List Char × List Char
  | [] => ([], [])
  | c :: rest =>
    if c.isDigit then
      let p := takeDigits rest
      (c :: p.1, p.2)
    else ([], c :: rest)

/-- Parse a JSON number. An integer literal (no fraction, no exponent)
becomes a Python `int`; anything else becomes a Python `float`, kept as its
lexeme (floating-point value semantics are outside this embedding). -/
def parseJsonNumber (s : List Char) : Option (PyJson × List Char) :=
  let signed : Bool × List Char :=
    match s with
    | '-' :: r => (true, r)
    | _ => (false, s)
  let intPart := takeDigits signed.2
  if intPart.1.isEmpty then none
  else if intPart.1.length > 1 ∧ intPart.1.head? = some '0' then none
  else
    let fracPart : Option (List Char) × List Char :=
      match intPart.2 with
      | '.' :: r =>
        let p := takeDigits r
        (some p.1, p.2)
      | _ => (none, intPart.2)
    let expPart : Option (List Char) × List Char :=
      match fracPart.2 with
      | 'e' :: r =>
        (match r with
         | '+' :: r2 => let p := takeDigits r2; (some ('+' :: p.1), p.2)
         | '-' :: r2 => let p := takeDigits r2; (some ('-' :: p.1), p.2)
         | _ => let p := takeDigits r; (some p.1, p.2))
      | 'E' :: r =>
        (match r with
         | '+' :: r2 => let p := takeDigits r2; (some ('+' :: p.1), p.2)
         | '-' :: r2 => let p := takeDigits r2; (some ('-' :: p.1), p.2)
         | _ => let p := takeDigits r; (some p.1, p.2))
      | _ => (none, fracPart.2)
    match fracPart.1, expPart.1 with
    | none, none =>
        let v : Int := Int.ofNat (intPart.1.foldl (fun a c => a * 10 + (c.toNat - 48)) 0)
        some (.pyint (if signed.1 then -v else v), intPart.2)
    | some fds, none =>
        if fds.isEmpty then none
        else some (.pyfloat ⟨(if signed.1 then ['-'] else []) ++ intPart.1 ++
          '.' :: fds⟩, fracPart.2)
    | none, some eds =>
        if eds.isEmpty ∨ eds = ['+'] ∨ eds = ['-'] then none
        else some (.pyfloat ⟨(if signed.1 then ['-'] else []) ++ intPart.1 ++
          'e' :: eds⟩, expPart.2)
    | some fds, some eds =>
        if fds.isEmpty ∨ eds.isEmpty ∨ eds = ['+'] ∨ eds = ['-'] then none
        else some (.pyfloat ⟨(if signed.1 then ['-'] else []) ++ intPart.1 ++
          '.' :: fds ++ 'e' :: eds⟩, expPart.2)

mutual

/-- Recursive-descent JSON value parser mirroring `json.loads`. -/
def parseJsonValue : Nat → List Char → Option (PyJson × List Char)
  | 0, _ => none
  | fuel + 1, s =>
    match skipJsonWs s with
    | [] => none
    | c :: rest =>
      if c == '"' then
        match parseJsonString (rest.length + 1) rest with
        | some (str, r) => some (.pystr str, r)
        | none => none
      else if c == Char.ofNat 123 then
        match skipJsonWs rest with
        | [] => none
        | c2 :: r2 =>
          if c2 == Char.ofNat 125 then some (.pydict [], r2)
          else
            match parseJsonMembers fuel (c2 :: r2) with
            | some (kvs, r3) => some (.pydict kvs, r3)
            | none => none
      else if c == '[' then
        match skipJsonWs rest with
        | [] => none
        | c2 :: r2 =>
          if c2 == ']' then some (.pylist [], r2)
          else
            match parseJsonElements fuel (c2 :: r2) with
            | some (xs, r3) => some (.pylist xs, r3)
            | none => none
      else if c == 't' then
        match rest with
        | 'r' :: 'u' :: 'e' :: r => some (.pybool true, r)
        | _ => none
      else if c == 'f' then
        match rest with
        | 'a' :: 'l' :: 's' :: 'e' :: r => some (.pybool false, r)
        | _ => none
      else if c == 'n' then
        match rest with
        | 'u' :: 'l' :: 'l' :: r => some (.pynull, r)
        | _ => none
      else if c == '-' || c.isDigit then parseJsonNumber (c :: rest)
      else none

/-- Parse the members of a JSON object (first member pending). -/
def parseJsonMembers : Nat → List Char → Option (List (String × PyJson) × List Char)
  | 0, _ => none
  | fuel + 1, s =>
    match skipJsonWs s with
    | [] => none
    | c :: rest =>
      if c == '"' then
        match parseJsonString (rest.length + 1) rest with
        | some (key, r1) =>
          match skipJsonWs r1 with
          | ':' :: r2 =>
            (match parseJsonValue fuel r2 with
             | some (v, r3) =>
               match skipJsonWs r3 with
               | ',' :: r4 =>
                 (match parseJsonMembers fuel r4 with
                  | some (kvs, r5) => some ((key, v) :: kvs, r5)
                  | none => none)
               | c5 :: r5 =>
                 if c5 == Char.ofNat 125 then some ([(key, v)], r5) else none
               | [] => none
             | none => none)
          | _ => none
        | none => none
      else none

/-- Parse the elements of a JSON array (first element pending). -/
def parseJsonElements : Nat → List Char → Option (List PyJson × List Char)
  | 0, _ => none
  | fuel + 1, s =>
    match parseJsonValue fuel s with
    | some (v, r1) =>
      (match skipJsonWs r1 with
       | ',' :: r2 =>
         (match parseJsonElements fuel r2 with
          | some (xs, r3) => some (v :: xs, r3)
          | none => none)
       | c2 :: r2 => if c2 == ']' then some ([v], r2) else none
       | [] => none)
    | none => none

end

/-- `json.loads(s)`: parse one value and require only whitespace after it. -/
def jsonLoads (s : String) : Option PyJson :=
  match parseJsonValue (s.data.length + 1) s.data with
  | some (v, rest) => if (skipJsonWs rest).isEmpty then some v else none
  | none => none

/-- Python's `"sep".join(parts)`. -/
def joinSep (sep : String) : List String → String
  | [] => ""
  | [a] => a
  | a :: b :: rest => a ++ sep ++ joinSep sep (b :: rest)

/-- Decimal rendering of a Python `int`. -/
def intDecimal (n : Int) : String :=
  if n < 0 then "-" ++ natDecimal n.natAbs else natDecimal n.toNat

mutual

/-- Python `repr` of a decoded JSON value, as the f-string formatting uses
for elements of nested containers. String quoting is the plain `'...'`
form (Python's escaping of quotes inside the string is not reproduced);
floats keep their lexeme — both corners are outside what any claim
observes. -/
def pyRepr : PyJson → String
  | .pynull => "None"
  | .pybool true => "True"
  | .pybool false => "False"
  | .pyint n => intDecimal n
  | .pyfloat raw => raw
  | .pystr s => "'" ++ s ++ "'"
  | .pylist xs => "[" ++ pyReprList xs ++ "]"
  | .pydict kvs => "\x7b" ++ pyReprMembers kvs ++ "\x7d"

def pyReprList : List PyJson → String
  | [] => ""
  | [x] => pyRepr x
  | x :: y :: rest => pyRepr x ++ ", " ++ pyReprList (y :: rest)

def pyReprMembers : List (String × PyJson) → String
  | [] => ""
  | [kv] => "'" ++ kv.1 ++ "': " ++ pyRepr kv.2
  | kv :: kv2 :: rest => "'" ++ kv.1 ++ "': " ++ pyRepr kv.2 ++ ", " ++
      pyReprMembers (kv2 :: rest)

end

/-- Python `str` of a decoded JSON value: identical to `repr` except that a
top-level string is rendered without quotes. -/
def pyStr : PyJson → String
  | .pystr s => s
  | v => pyRepr v

/-- The output-step formatting of `_run_terraform_workflow`
(terraform_tasks.py lines 351-356, excerpted at SECURITY_ANALYSIS.md
1846-1857): `outputs = json.loads(stdout)` followed by
`"\n".join(f"{k}: {v.get('value', 'N/A')}" for k, v in outputs.items())`.
Any exception inside that `try` — malformed JSON, a top-level value that is
not an object (no `.items()`), or a member value that is not an object (no
`.get`) — takes the `except` branch, which is elided in the excerpt;
Modelled from the spec: that branch falls back to the raw captured stdout
as the human-readable summary. A duplicate key inside one object, which
Python's dict would collapse to its last binding, is rendered once per
occurrence here; the claims observe neither corner. -/
def formatOutputs (s : String) : String :=
  match jsonLoads s with
  | some (.pydict kvs) =>
    if kvs.all (fun kv => match kv.2 with | .pydict _ => true | _ => false) then
      joinSep (String.mk [Char.ofNat 10]) (kvs.map (fun kv =>
        kv.1 ++ ": " ++
        (match kv.2 with
         | .pydict fields =>
           (match fields.reverse.find? (fun p => p.1 == "value") with
            | some p => pyStr p.2
            | none => "N/A")
         | _ => "N/A")))
    else s
  | _ => s

/-- `_run_terraform_workflow(workspace_dir)` (terraform_tasks.py lines
329-356): init, plan, dry-run early return, apply, output. The module
global `DRY_RUN_MODE` is passed explicitly. The branch where the final
`output` step fails is elided in the source excerpt; it is modelled as
returning success with empty output, which no claim depends on. -/
def runTerraformWorkflow (dryRunMode : Bool) (tool : ToolBehavior) (fs : FS)
    (workspaceDir : String) : GenResult × List Event :=
  let log0 := Event.logged ("Running Terraform in " ++ workspaceDir ++ " (DRY_RUN=" ++
    (if dryRunMode then "True" else "False") ++ ")")
  let ir := runTerraform tool fs workspaceDir initCmd
  if ir.1.success then
    let pr := runTerraform tool fs workspaceDir planCmd
    if pr.1.success then
      if dryRunMode then
        ({ success := true,
           output := "[DRY RUN] Plan completed successfully.\nWorkspace: " ++ workspaceDir ++
             "\n\nPlan output:\n" ++ strTake 2000 pr.1.output },
         log0 :: ir.2 ++ pr.2 ++ [Event.logged "DRY RUN MODE: Skipping terraform apply"])
      else
        let ar := runTerraform tool fs workspaceDir applyCmd
        if ar.1.success then
          let outr := runTerraform tool fs workspaceDir outputCmd
          if outr.1.success then
            ({ success := true, output := formatOutputs outr.1.output },
             log0 :: ir.2 ++ pr.2 ++ ar.2 ++ outr.2)
          else
            ({ success := true, output := "" },
             log0 :: ir.2 ++ pr.2 ++ ar.2 ++ outr.2)
        else
          ({ success := false, error := "Terraform apply failed:\n" ++ ar.1.error },
           log0 :: ir.2 ++ pr.2 ++ ar.2)
    else
      ({ success := false, error := "Terraform plan failed:\n" ++ pr.1.error },
       log0 :: ir.2 ++ pr.2)
  else
    ({ success := false, error := "Terraform init failed:\n" ++ ir.1.error },
     log0 :: ir.2)

/-- The deterministic workspace path
`os.path.join(TERRAFORM_WORKSPACES_PATH, f"request-{request_id}")`
(terraform_tasks.py line 100 and line 401). -/
def workspacePath (workspacesRoot : String) (requestId : Nat) : String :=
  workspacesRoot ++ "/request-" ++ natDecimal requestId

/-- `_create_workspace(request_id, resource_type)` (terraform_tasks.py lines
99-102): `os.makedirs(workspace_dir, exist_ok=True)`; the resource type
argument is ignored by the source body. -/
def createWorkspace (workspacesRoot : String) (fs : FS) (requestId : Nat)
    (_resourceType : String) : String × FS × List Event :=
  let dir := workspacePath workspacesRoot requestId
  (dir,
   { fs with dirs := if dir ∈ fs.dirs then fs.dirs else fs.dirs ++ [dir] },
   [Event.mkdirWorkspace dir])

/-- A row of the `resource_requests` table, as read and mutated by the task
(`models.ResourceRequest`): id, name, resource type, optional config dict,
status string, optional append-only admin notes. -/
structure Request where
  id : Nat
  name : String
  resource_type : String
  config : Option (List (String × String)) := none
  status : String
  admin_notes : Option String := none
deriving Repr, DecidableEq

/-- The request store (the external persistence collaborator), keyed by id. -/
def Store : Type := Nat → Option Request

/-- A committed single-row update: `db.commit()` after mutating the fetched
request object. -/
def setReq (store : Store) (requestId : Nat) (r : Request) : Store :=
  fun j => if j = requestId then some r else store j

/-- Python `dict.get(key, default)` over the request's config mapping. -/
def dictGet (m : List (String × String)) (k d : String) : String :=
  match m.find? (fun p => p.1 == k) with
  | some p => p.2
  | none => d

/-- `with open(path, "w") as f: f.write(content)`: overwrite-or-create. -/
def writeFile (fs : FS) (path content : String) : FS × Event :=
  ({ fs with files := (path, content) :: fs.files.filter (fun p => p.1 ≠ path) },
   Event.fileWritten path content)

/-- The provider configuration text written by `_write_provider_config`
for the `"aws"` provider (terraform_tasks.py lines 105-125). -/
def awsProviderTf : String :=
  "\nterraform \x7b\n  required_providers \x7b\n    aws = \x7b\n      source  = \"hashicorp/aws\"\n      version = \"~> 5.0\"\n    \x7d\n  \x7d\n\x7d\n\nprovider \"aws\" \x7b\n  region = var.aws_region\n\x7d\n\nvariable \"aws_region\" \x7b\n  type    = string\n  default = \"us-east-1\"\n\x7d\n"

/-- `_write_provider_config(workspace_dir, provider)` (lines 105-125):
writes the provider block into `provider.tf` in the workspace. Only the
`"aws"` branch is excerpted in the source; per the spec every generator
emits a provider/connection configuration file, so a non-aws provider is
modelled as writing an empty provider file. -/
def writeProviderConfig (fs : FS) (workspaceDir provider : String) : FS × List Event :=
  if provider = "aws" then
    let w := writeFile fs (workspaceDir ++ "/provider.tf") awsProviderTf
    (w.1, [w.2])
  else
    let w := writeFile fs (workspaceDir ++ "/provider.tf") ""
    (w.1, [w.2])

/-- The `size_mapping` dict of `_provision_database`
(terraform_tasks.py lines 162-167). -/
def sizeMapping (size : String) : Option String :=
  if size = "small" then some "db.t3.micro"
  else if size = "medium" then some "db.t3.small"
  else if size = "large" then some "db.t3.medium"
  else if size = "xlarge" then some "db.t3.large"
  else none

/-- The generated `main.tf` for a database request (terraform_tasks.py lines
175-200): a module block whose `source` interpolates
`TERRAFORM_MODULES_PATH` and whose arguments are variable references. The
middle of the block is elided (`...`) in the source excerpt; the elided
lines are further `name = var.name`-style references that interpolate no
request data, per the shown prefix and the database module's variables. -/
def dbMainTf (modulesPath : String) : String :=
  "\nmodule \"database\" \x7b\n  source = \"" ++ modulesPath ++
  "/database\"\n\n  name             = var.name\n  engine           = var.engine\n  instance_class   = var.instance_class\n  username         = var.username\n  password         = var.password\n\x7d\n"

/-- The generated `terraform.tfvars` for a database request
(terraform_tasks.py lines 203-214): concrete variable values, including the
generated master password. The source excerpt shows the `name` and `engine`
lines and elides the rest (`...`); the elided lines are modelled from the
spec's variable-values contract and the database module's variables
(instance class and the generated master password). -/
def dbTfvars (name engine instanceClass password : String) : String :=
  "\nname           = \"" ++ name ++ "\"\nengine         = \"" ++ engine ++
  "\"\ninstance_class = \"" ++ instanceClass ++ "\"\npassword       = \"" ++
  password ++ "\"\n"

/-- Static configuration of the task module: the workspaces root
(`TERRAFORM_WORKSPACES_PATH`), the modules root (`TERRAFORM_MODULES_PATH`)
and the module-global `DRY_RUN_MODE` flag (terraform_tasks.py line 22). -/
structure TfConfig where
  workspacesRoot : String := "terraform/workspaces"
  modulesPath : String := "terraform/modules"
  dryRunMode : Bool := true

/-- `_provision_database(request)` (terraform_tasks.py lines 153-222):
create the workspace, write the provider config, resolve defaults
(`engine` postgres, `size` small), map the friendly size through
`size_mapping` (the elided lookup line falls back to the documented default
tier `db.t3.micro`, per the spec), generate the master password, write
`main.tf` and `terraform.tfvars`, then run the terraform workflow. -/
def provisionDatabase (cfg : TfConfig) (tool : ToolBehavior) (rng : Nat → Nat)
    (fs : FS) (req : Request) : GenResult × FS × List Event :=
  let config := req.config.getD []
  let cw := createWorkspace cfg.workspacesRoot fs req.id "database"
  let workspaceDir := cw.1
  let pc := writeProviderConfig cw.2.1 workspaceDir "aws"
  let engine := dictGet config "engine" "postgres"
  let size := dictGet config "size" "small"
  let instanceClass := (sizeMapping size).getD "db.t3.micro"
  let password := generatePassword rng 16
  let w3 := writeFile pc.1 (workspaceDir ++ "/main.tf") (dbMainTf cfg.modulesPath)
  let w4 := writeFile w3.1 (workspaceDir ++ "/terraform.tfvars")
    (dbTfvars req.name engine instanceClass password)
  let wres := runTerraformWorkflow cfg.dryRunMode tool w4.1 workspaceDir
  (wres.1, w4.1, cw.2.2 ++ pc.2 ++ [w3.2, w4.2] ++ wres.2)

/-- Modelled from the spec: `_provision_s3(request)` is not excerpted in
src/SECURITY_ANALYSIS.md; per spec sections 4.4 and 6 it creates the
workspace, writes the provider configuration, a module definition and a
variable-values file with the object-storage defaults
(region us-east-1, public false), then runs the terraform workflow. -/
def provisionS3 (cfg : TfConfig) (tool : ToolBehavior) (fs : FS) (req : Request) :
    GenResult × FS × List Event :=
  let config := req.config.getD []
  let cw := createWorkspace cfg.workspacesRoot fs req.id "s3"
  let workspaceDir := cw.1
  let pc := writeProviderConfig cw.2.1 workspaceDir "aws"
  let region := dictGet config "region" "us-east-1"
  let publicFlag := dictGet config "public" "false"
  let w3 := writeFile pc.1 (workspaceDir ++ "/main.tf")
    ("\nmodule \"s3\" \x7b\n  source = \"" ++ cfg.modulesPath ++
     "/s3\"\n\n  name   = var.name\n  region = var.region\n  public = var.public\n\x7d\n")
  let w4 := writeFile w3.1 (workspaceDir ++ "/terraform.tfvars")
    ("\nname   = \"" ++ req.name ++ "\"\nregion = \"" ++ region ++
     "\"\npublic = " ++ publicFlag ++ "\n")
  let wres := runTerraformWorkflow cfg.dryRunMode tool w4.1 workspaceDir
  (wres.1, w4.1, cw.2.2 ++ pc.2 ++ [w3.2, w4.2] ++ wres.2)

/-- Modelled from the spec: `_provision_k8s_namespace(request)` is not
excerpted in src/SECURITY_ANALYSIS.md; per spec sections 4.4 and 6 it
creates the workspace, writes the provider configuration, a module
definition and a variable-values file with the namespace defaults
(cluster default, quota standard), then runs the terraform workflow. -/
def provisionK8sNamespace (cfg : TfConfig) (tool : ToolBehavior) (fs : FS) (req : Request) :
    GenResult × FS × List Event :=
  let config := req.config.getD []
  let cw := createWorkspace cfg.workspacesRoot fs req.id "k8s_namespace"
  let workspaceDir := cw.1
  let pc := writeProviderConfig cw.2.1 workspaceDir "kubernetes"
  let cluster := dictGet config "cluster" "default"
  let quota := dictGet config "quota" "standard"
  let w3 := writeFile pc.1 (workspaceDir ++ "/main.tf")
    ("\nmodule \"k8s_namespace\" \x7b\n  source = \"" ++ cfg.modulesPath ++
     "/k8s_namespace\"\n\n  name = var.name\n\x7d\n")
  let w4 := writeFile w3.1 (workspaceDir ++ "/terraform.tfvars")
    ("\nname    = \"" ++ req.name ++ "\"\ncluster = \"" ++ cluster ++
     "\"\nquota   = \"" ++ quota ++ "\"\n")
  let wres := runTerraformWorkflow cfg.dryRunMode tool w4.1 workspaceDir
  (wres.1, w4.1, cw.2.2 ++ pc.2 ++ [w3.2, w4.2] ++ wres.2)

/-- `_provision_by_type(request)` (terraform_tasks.py lines 77-91): the
resource-type router. Dispatches on the literal resource type string; any
other value returns `{"success": False, "error": f"Unknown resource type:
{resource_type}"}` without touching the filesystem or the tool. -/
def provisionByType (cfg : TfConfig) (tool : ToolBehavior) (rng : Nat → Nat)
    (fs : FS) (req : Request) : GenResult × FS × List Event :=
  let resource_type := req.resource_type
  let _config := req.config.getD []
  let _name := req.name
  if resource_type = "database" then provisionDatabase cfg tool rng fs req
  else if resource_type = "s3" then provisionS3 cfg tool fs req
  else if resource_type = "k8s_namespace" then provisionK8sNamespace cfg tool fs req
  else ({ success := false, error := "Unknown resource type: " ++ resource_type }, fs, [])

/-- Fault injection for the external store and generator I/O: which of the
task's fallible operations raise an unexpected exception during this
attempt, and the `str(e)` text of that exception. All-false means the store
and the local filesystem behave normally. -/
structure Faults where
  fetchFails : Bool := false
  claimCommitFails : Bool := false
  generatorRaises : Bool := false
  finalCommitFails : Bool := false
  rescueFails : Bool := false
  faultMsg : String := "store error"
deriving Repr, DecidableEq

/-- How one execution of a Celery task body ends: an early error return, an
early skip return, a normal completion carrying the generator result, or a
raised `self.retry(...)` with its countdown. -/
inductive TaskOutcome where
  | errorReturn (message : String)
  | skippedReturn (message : String)
  | finished (r : GenResult)
  | retryRaised (countdown : Nat)
deriving Repr, DecidableEq

/-- State after one task execution: outcome, final store, final filesystem,
and the trace of side effects. -/
structure TaskResult where
  outcome : TaskOutcome
  store : Store
  fs : FS
  events : List Event

/-- The `except Exception` block of `provision_resource` (terraform_tasks.py
lines 59-71): log the error, best-effort re-fetch the request and mark it
`failed` with the error appended to notes (swallowing any failure of that
inner write), then `raise self.retry(exc=e, countdown=60)`. -/
def provisionRescue (f : Faults) (store : Store) (fs : FS) (requestId : Nat)
    (evs : List Event) : TaskResult :=
  let evs1 := evs ++
    [Event.logged ("Error provisioning request " ++ natDecimal requestId ++ ": " ++ f.faultMsg)]
  if f.rescueFails then
    { outcome := .retryRaised 60, store := store, fs := fs, events := evs1 }
  else
    match store requestId with
    | none => { outcome := .retryRaised 60, store := store, fs := fs, events := evs1 }
    | some request =>
        let newReq := { request with
          status := "failed",
          admin_notes := some ((request.admin_notes.getD "") ++
            "\n\nProvisioning error: " ++ f.faultMsg) }
        { outcome := .retryRaised 60, store := setReq store requestId newReq,
          fs := fs, events := evs1 }

/-- `provision_resource(self, request_id)` (terraform_tasks.py lines 25-74):
fetch the request; return an error if absent; skip unless `approved`;
set status `provisioning` and commit; run `_provision_by_type`; commit the
terminal status (`provisioned` with output appended to notes on success,
`failed` with error appended on failure); any unexpected exception goes
through the rescue block and raises retry. The commit concluding the
success/failure branch (elided lines 53-57 of the excerpt) is modelled per
the flow description in src/SECURITY_ANALYSIS.md ("Worker updates
database"). -/
def provisionResource (cfg : TfConfig) (f : Faults) (tool : ToolBehavior)
    (rng : Nat → Nat) (store : Store) (fs : FS) (requestId : Nat) : TaskResult :=
  if f.fetchFails then provisionRescue f store fs requestId []
  else
    match store requestId with
    | none =>
        { outcome := .errorReturn "Request not found", store := store, fs := fs,
          events := [.logged ("Request " ++ natDecimal requestId ++ " not found")] }
    | some request =>
        if request.status ≠ "approved" then
          { outcome := .skippedReturn "Request not approved", store := store, fs := fs,
            events := [.logged ("Request " ++ natDecimal requestId ++
              " is not approved, skipping")] }
        else
          if f.claimCommitFails then
            provisionRescue f store fs requestId [.logged "Starting provisioning..."]
          else
            let store1 := setReq store requestId { request with status := "provisioning" }
            if f.generatorRaises then
              provisionRescue f store1 fs requestId [.logged "Starting provisioning..."]
            else
              let pres := provisionByType cfg tool rng fs request
              let result := pres.1
              let newReq :=
                if result.success then
                  { request with
                    status := "provisioned",
                    admin_notes := some ((request.admin_notes.getD "") ++
                      "\n\nProvisioned successfully:\n" ++ result.output) }
                else
                  { request with
                    status := "failed",
                    admin_notes := some ((request.admin_notes.getD "") ++
                      "\n\nProvisioning failed:\n" ++ result.error) }
              if f.finalCommitFails then
                provisionRescue f store1 pres.2.1 requestId
                  (.logged "Starting provisioning..." :: pres.2.2)
              else
                { outcome := .finished result,
                  store := setReq store1 requestId newReq, fs := pres.2.1,
                  events := .logged "Starting provisioning..." :: pres.2.2 }

/-- `max_retries=3` of the `@celery_app.task` decorator
(terraform_tasks.py line 25). -/
def maxRetries : Nat := 3

/-- Did this task execution end by raising `self.retry`? -/
def isRetryRaised : TaskOutcome → Bool
  | .retryRaised _ => true
  | _ => false

/-- The Celery retry wrapper around `provision_resource`: re-execute the
task while it raises `self.retry`, up to `max_retries` re-executions after
the first. Returns the final task result and how many executions ran. -/
def retryLoop (cfg : TfConfig) (f : Faults) (tool : ToolBehavior) (rng : Nat → Nat)
    (requestId : Nat) : Nat → Store → FS → TaskResult × Nat
  | 0, store, fs => (provisionResource cfg f tool rng store fs requestId, 1)
  | Nat.succ fuel, store, fs =>
      let r := provisionResource cfg f tool rng store fs requestId
      if isRetryRaised r.outcome then
        let rest := retryLoop cfg f tool rng requestId fuel r.store r.fs
        (rest.1, rest.2 + 1)
      else (r, 1)

/-- One queued provisioning attempt as Celery runs it: the task body plus
its bounded retry policy. -/
def celeryProvision (cfg : TfConfig) (f : Faults) (tool : ToolBehavior)
    (rng : Nat → Nat) (store : Store) (fs : FS) (requestId : Nat) : TaskResult × Nat :=
  retryLoop cfg f tool rng requestId maxRetries store fs

/-- `shutil.rmtree(workspace_dir, ignore_errors=True)`: the directory and
every file under it disappear. -/
def rmtreeFS (fs : FS) (dir : String) : FS :=
  { dirs := fs.dirs.filter (fun d => d ≠ dir),
    files := fs.files.filter (fun p => ¬ (dir ++ "/").data.isPrefixOf p.1.data) }

/-- `destroy_resource(self, request_id)` (terraform_tasks.py lines 392-413):
require the workspace directory to exist (otherwise return the
workspace-not-found error and do nothing), run `terraform destroy`; on
success set the request status to `destroyed` and recursively remove the
workspace. The failure branch is elided in the source excerpt; per the spec
it appends the error to notes and leaves status and workspace untouched
(modelled from the spec). The request re-fetch implicit in
`request.status = "destroyed"` leaves the store unchanged when the request
row is absent. -/
def destroyResource (cfg : TfConfig) (tool : ToolBehavior) (store : Store)
    (fs : FS) (requestId : Nat) : TaskResult :=
  let workspaceDir := workspacePath cfg.workspacesRoot requestId
  if workspaceDir ∈ fs.dirs then
    let dr := runTerraform tool fs workspaceDir destroyCmd
    if dr.1.success then
      let store1 :=
        match store requestId with
        | none => store
        | some request => setReq store requestId { request with status := "destroyed" }
      { outcome := .finished dr.1, store := store1, fs := rmtreeFS fs workspaceDir,
        events := dr.2 ++ [.rmtree workspaceDir] }
    else
      let store1 :=
        match store requestId with
        | none => store
        | some request =>
            setReq store requestId { request with
              admin_notes := some ((request.admin_notes.getD "") ++
                "\n\nDestroy failed:\n" ++ dr.1.error) }
      { outcome := .finished dr.1, store := store1, fs := fs, events := dr.2 }
  else
    { outcome := .errorReturn "Workspace not found", store := store, fs := fs,
      events := [] }

/-- The commands actually sent to the external tool, in order, read off an
event trace. -/
def invokedCommands (evs : List Event) : List (List String) :=
  evs.filterMap (fun e => match e with
    | .toolInvoked _ c => some c
    | _ => none)

/-- What an orchestrator attempt decides during the claim phase. -/
inductive ClaimOutcome where
  | skipped
  | proceeded
deriving Repr, DecidableEq

/-- Local state of one attempt running the claim phase of
`provision_resource` (terraform_tasks.py lines 36-43): program counter 0 is
about to execute the status check (lines 36-38), program counter 1 is about
to execute the `provisioning` write + commit (lines 42-43), program counter
2 is done. -/
structure AttemptState where
  pc : Nat := 0
  outcome : Option ClaimOutcome := none
deriving Repr, DecidableEq

/-- One atomic store operation of the claim phase: at pc 0, read the status
and skip unless it is `approved` (the read is the only store access of
lines 36-38); at pc 1, write `provisioning` and commit (lines 42-43).
There is no compare-and-set: the write at pc 1 does not re-examine the
status it overwrites. -/
def claimStep (status : String) (a : AttemptState) : String × AttemptState :=
  match a.pc with
  | 0 => if status ≠ "approved" then (status, { pc := 2, outcome := some .skipped })
         else (status, { pc := 1, outcome := none })
  | 1 => ("provisioning", { pc := 2, outcome := some .proceeded })
  | _ => (status, a)

/-- Shared status plus the two racing attempts. -/
structure RaceState where
  status : String
  attemptA : AttemptState := {}
  attemptB : AttemptState := {}
deriving Repr, DecidableEq

/-- Run one store operation of attempt A (`false`) or B (`true`). -/
def raceStep (s : RaceState) (pick : Bool) : RaceState :=
  if pick then
    let r := claimStep s.status s.attemptB
    { s with status := r.1, attemptB := r.2 }
  else
    let r := claimStep s.status s.attemptA
    { s with status := r.1, attemptA := r.2 }

/-- Interleaved execution of two claim-phase attempts on the same request
under a schedule: each schedule entry names the attempt whose next store
operation runs. -/
def runRace (initialStatus : String) (schedule : List Bool) : RaceState :=
  schedule.foldl raceStep { status := initialStatus }

/-- `needle` occurs as a contiguous substring of `hay`. -/
def occursIn (needle hay : String) : Prop := needle.data <:+: hay.data

instance (needle hay : String) : Decidable (occursIn needle hay) := by
  unfold occursIn; infer_instance

theorem strData_append (a b : String) : (a ++ b).data = a.data ++ b.data := rfl

/-- Every character of `pw` lies in the password alphabet. -/
def pwAlnum (pw : String) : Prop := ∀ c ∈ pw.data, c ∈ passwordAlphabet.data

/-- An infix of a concatenation lies in the left part, lies in the right
part, or straddles the junction. -/
theorem infix_append_cases {α : Type} {l xs ys : List α} (h : l <:+: xs ++ ys) :
    l <:+: xs ∨ l <:+: ys ∨
    ∃ l₁ l₂, l₁ ++ l₂ = l ∧ l₁ ≠ [] ∧ l₂ ≠ [] ∧ l₁ <:+ xs ∧ l₂ <+: ys := by
  obtain ⟨s, t, hst⟩ := h
  rw [List.append_assoc] at hst
  rcases List.append_eq_append_iff.mp hst with ⟨a', ha1, ha2⟩ | ⟨c', hc1, hc2⟩
  · rcases List.append_eq_append_iff.mp ha2 with ⟨b', hb1, hb2⟩ | ⟨d', hd1, hd2⟩
    · left
      exact ⟨s, b', by rw [ha1, hb1, List.append_assoc]⟩
    · by_cases hA : a' = []
      · right; left
        subst hA
        simp only [List.nil_append] at hd1
        exact ⟨[], t, by simp [hd1, hd2]⟩
      · by_cases hD : d' = []
        · left
          subst hD
          rw [List.append_nil] at hd1
          exact ⟨s, [], by rw [List.append_nil, ha1, hd1]⟩
        · right; right
          exact ⟨a', d', hd1.symm, hA, hD, ⟨s, ha1.symm⟩, ⟨t, hd2.symm⟩⟩
  · right; left
    exact ⟨c', t, by rw [hc2, List.append_assoc]⟩

/-- A string of alphabet characters cannot straddle a junction whose left
side ends in a non-alphabet character. -/
theorem not_infix_append_left {pw : String} {xs ys : List Char}
    (hpw : pwAlnum pw)
    (hlast : ∀ c, xs.getLast? = some c → c ∉ passwordAlphabet.data)
    (hx : ¬ pw.data <:+: xs) (hy : ¬ pw.data <:+: ys) :
    ¬ pw.data <:+: xs ++ ys := by
  intro h
  rcases infix_append_cases h with h1 | h2 | ⟨l₁, l₂, hl, h1ne, _h2ne, hsuf, _hpre⟩
  · exact hx h1
  · exact hy h2
  · obtain ⟨u, hu⟩ := hsuf
    have hlast1 : xs.getLast? = l₁.getLast? := by
      rw [← hu]; exact List.getLast?_append_of_ne_nil u h1ne
    have hchar := List.getLast?_eq_getLast_of_ne_nil h1ne
    have hmem : l₁.getLast h1ne ∈ pw.data := by
      rw [← hl]; exact List.mem_append_left _ (List.getLast_mem h1ne)
    exact hlast _ (by rw [hlast1, hchar]) (hpw _ hmem)

/-- A string of alphabet characters cannot straddle a junction whose right
side starts with a non-alphabet character. -/
theorem not_infix_append_right {pw : String} {xs ys : List Char}
    (hpw : pwAlnum pw)
    (hhead : ∀ c, ys.head? = some c → c ∉ passwordAlphabet.data)
    (hx : ¬ pw.data <:+: xs) (hy : ¬ pw.data <:+: ys) :
    ¬ pw.data <:+: xs ++ ys := by
  intro h
  rcases infix_append_cases h with h1 | h2 | ⟨l₁, l₂, hl, _h1ne, h2ne, _hsuf, hpre⟩
  · exact hx h1
  · exact hy h2
  · obtain ⟨v, hv⟩ := hpre
    match l₂, h2ne with
    | c :: cs, _ =>
      have hhead1 : ys.head? = some c := by rw [← hv]; rfl
      have hmem : c ∈ pw.data := by
        rw [← hl]; exact List.mem_append_right _ (List.mem_cons_self c cs)
      exact hhead c hhead1 (hpw _ hmem)

/-- Boolean check that every character lies in the password alphabet. -/
def allAlnumB (l : List Char) : Bool := l.all (fun c => passwordAlphabet.data.contains c)

/-- Does `l` contain 16 consecutive password-alphabet characters? -/
def hasRun16 (l : List Char) : Bool :=
  l.tails.any (fun t => decide (16 ≤ t.length) && allAlnumB (t.take 16))

theorem hasRun16_of_occurrence {pw : String} {s : List Char}
    (hlen : pw.data.length = 16) (hpw : pwAlnum pw) (h : pw.data <:+: s) :
    hasRun16 s = true := by
  obtain ⟨u, v, huv⟩ := h
  have htail : pw.data ++ v ∈ s.tails := by
    rw [List.mem_tails]
    exact ⟨u, by rw [← List.append_assoc, huv]⟩
  apply List.any_eq_true.mpr
  refine ⟨pw.data ++ v, htail, ?_⟩
  rw [Bool.and_eq_true]
  constructor
  · simp [List.length_append, hlen]
  · have htake : (pw.data ++ v).take 16 = pw.data := by
      rw [← hlen]; exact List.take_left pw.data v
    rw [htake]
    apply List.all_eq_true.mpr
    intro c hc
    exact List.elem_eq_true_of_mem (hpw c hc)

/-- A 16-character alphabet-only string does not occur in a string without a
16-character alphabet run. -/
theorem not_occursIn_of_no_run {pw s : String}
    (hlen : pw.data.length = 16) (hpw : pwAlnum pw)
    (hs : hasRun16 s.data = false) : ¬ occursIn pw s := by
  intro h
  rw [hasRun16_of_occurrence hlen hpw h] at hs
  cases hs

/-- String-level left-boundary composition for non-occurrence. -/
theorem pwFree_append_L {pw x y : String} (hpw : pwAlnum pw)
    (hlast : ∀ c, x.data.getLast? = some c → c ∉ passwordAlphabet.data)
    (hx : ¬ occursIn pw x) (hy : ¬ occursIn pw y) : ¬ occursIn pw (x ++ y) :=
  fun h => not_infix_append_left hpw hlast hx hy h

/-- String-level right-boundary composition for non-occurrence. -/
theorem pwFree_append_R {pw x y : String} (hpw : pwAlnum pw)
    (hhead : ∀ c, y.data.head? = some c → c ∉ passwordAlphabet.data)
    (hx : ¬ occursIn pw x) (hy : ¬ occursIn pw y) : ¬ occursIn pw (x ++ y) :=
  fun h => not_infix_append_right hpw hhead hx hy h

theorem strGetLastAppend (x y : String) (hy : y.data ≠ []) :
    (x ++ y).data.getLast? = y.data.getLast? :=
  List.getLast?_append_of_ne_nil x.data hy

theorem occursIn_of_right {pw x y : String} (h : occursIn pw y) : occursIn pw (x ++ y) := by
  obtain ⟨u, v, huv⟩ := h
  exact ⟨x.data ++ u, v, by rw [strData_append, ← huv]; simp [List.append_assoc]⟩

theorem occursIn_of_left {pw x y : String} (h : occursIn pw x) : occursIn pw (x ++ y) := by
  obtain ⟨u, v, huv⟩ := h
  exact ⟨u, v ++ y.data, by rw [strData_append, ← huv]; simp [List.append_assoc]⟩

/-- Numeric value of a decimal digit character. -/
def digitVal (c : Char) : Nat := c.toNat - 48

theorem digitVal_digitChar {d : Nat} (h : d < 10) : digitVal (digitChar d) = d := by
  interval_cases d <;> rfl

/-- Parse a decimal digit list back to the number it denotes. -/
def parseDecimal (l : List Char) : Nat := l.foldl (fun acc c => acc * 10 + digitVal c) 0

theorem natDigitsAux_parse (fuel : Nat) :
    ∀ n acc, n < fuel →
      (natDigitsAux fuel n).foldl (fun acc c => acc * 10 + digitVal c) acc =
        acc * 10 ^ (natDigitsAux fuel n).length + n := by
  induction fuel with
  | zero => intro n acc h; omega
  | succ fuel ih =>
      intro n acc h
      by_cases h10 : n < 10
      · simp [natDigitsAux, h10, List.foldl, digitVal_digitChar h10]
      · have hdiv : n / 10 < fuel := by omega
        simp only [natDigitsAux, if_neg h10, List.foldl_append, List.length_append,
          List.length_cons, List.length_nil, List.foldl]
        rw [ih (n / 10) acc hdiv, digitVal_digitChar (by omega : n % 10 < 10)]
        have : 10 ^ (0 + 1) = 10 := by ring
        rw [pow_succ]
        ring_nf
        omega

theorem parseDecimal_natDigits (n : Nat) : parseDecimal (natDigits n) = n := by
  unfold parseDecimal natDigits
  rw [natDigitsAux_parse (n + 1) n 0 (by omega)]
  simp

theorem natDigits_injective {a b : Nat} (h : natDigits a = natDigits b) : a = b := by
  have := congrArg parseDecimal h
  rwa [parseDecimal_natDigits, parseDecimal_natDigits] at this

theorem workspacePath_injective {root : String} {a b : Nat}
    (h : workspacePath root a = workspacePath root b) : a = b := by
  have hd := congrArg String.data h
  unfold workspacePath at hd
  rw [strData_append, strData_append] at hd
  exact natDigits_injective (List.append_cancel_left hd)

/-! ### Concrete fixtures used by witnesses and counterexamples -/

/-- A tool behavior whose every invocation succeeds with a fixed plan text. -/
def okTool : ToolBehavior := fun _ _ _ => .completed 0 "plandone" ""

/-- A tool behavior whose every invocation exceeds the 600s timeout. -/
def timeoutTool : ToolBehavior := fun _ _ _ => .timedOut

/-- A tool whose every command exits non-zero with diagnostics on stderr
(the ToolExecutionError shape). -/
def execFailTool : ToolBehavior := fun _ _ _ => .completed 1 "" "exit status 1"

/-- A tool whose binary is absent: every invocation raises
`FileNotFoundError` (the ToolNotFound shape). -/
def notFoundTool : ToolBehavior := fun _ _ _ => .notFound

/-- A fixed RNG oracle for witnesses. -/
def zeroRng : Nat → Nat := fun _ => 0

/-- An approved database request. -/
def sampleDbRequest : Request :=
  { id := 1, name := "testdb", resource_type := "database", status := "approved" }

/-- A store holding only `sampleDbRequest` under id 1. -/
def sampleStore : Store := fun j => if j = 1 then some sampleDbRequest else none

/-- A provisioned request, for the idempotence witness. -/
def provisionedRequest : Request :=
  { id := 4, name := "done", resource_type := "database", status := "provisioned" }

/-- A store holding only `provisionedRequest` under id 4. -/
def provisionedStore : Store := fun j => if j = 4 then some provisionedRequest else none

/-! ### C10 -/

/-- C10: `_create_workspace` is deterministic and idempotent — the returned
path is the fixed function `workspacePath` of the request id alone, a second
call returns the same path and leaves the filesystem unchanged, and two
distinct request ids always yield distinct paths. -/
theorem createWorkspace_deterministic (root : String) (fs : FS) (id1 id2 : Nat)
    (rt1 rt2 : String) (hne : id1 ≠ id2) :
    (createWorkspace root fs id1 rt1).1 = workspacePath root id1 ∧
    (createWorkspace root (createWorkspace root fs id1 rt1).2.1 id1 rt2).1 =
      (createWorkspace root fs id1 rt1).1 ∧
    (createWorkspace root (createWorkspace root fs id1 rt1).2.1 id1 rt2).2.1 =
      (createWorkspace root fs id1 rt1).2.1 ∧
    (createWorkspace root fs id1 rt1).1 ≠ (createWorkspace root fs id2 rt2).1 := by
  refine ⟨rfl, rfl, ?_, ?_⟩
  · by_cases h : workspacePath root id1 ∈ fs.dirs
    · simp [createWorkspace, h]
    · simp [createWorkspace, h]
  · intro h
    exact hne (workspacePath_injective h)

/-- Witness for C10 at concrete inputs. -/
theorem createWorkspace_deterministic_witness :
    (1 : Nat) ≠ 2 ∧
    ((createWorkspace "terraform/workspaces" {} 1 "database").1 =
        workspacePath "terraform/workspaces" 1 ∧
      (createWorkspace "terraform/workspaces"
          (createWorkspace "terraform/workspaces" {} 1 "database").2.1 1 "s3").1 =
        (createWorkspace "terraform/workspaces" {} 1 "database").1 ∧
      (createWorkspace "terraform/workspaces"
          (createWorkspace "terraform/workspaces" {} 1 "database").2.1 1 "s3").2.1 =
        (createWorkspace "terraform/workspaces" {} 1 "database").2.1 ∧
      (createWorkspace "terraform/workspaces" {} 1 "database").1 ≠
        (createWorkspace "terraform/workspaces" {} 2 "s3").1) :=
  ⟨by decide,
   createWorkspace_deterministic "terraform/workspaces" {} 1 2 "database" "s3" (by decide)⟩

/-! ### C3 -/

/-- C3: for a request whose status is not `approved` (in particular an
already-`provisioned` one), `provision_resource` returns the skipped
outcome, leaves the store (hence status and notes) untouched, leaves the
filesystem untouched, and its trace is a single log line — no workspace
mutation and no tool invocation. -/
theorem provisionResource_skips_non_approved (cfg : TfConfig) (tool : ToolBehavior)
    (rng : Nat → Nat) (store : Store) (fs : FS) (requestId : Nat) (req : Request)
    (hreq : store requestId = some req) (hst : req.status ≠ "approved") :
    (provisionResource cfg {} tool rng store fs requestId).outcome =
      .skippedReturn "Request not approved" ∧
    (provisionResource cfg {} tool rng store fs requestId).store = store ∧
    (provisionResource cfg {} tool rng store fs requestId).fs = fs ∧
    (provisionResource cfg {} tool rng store fs requestId).events =
      [.logged ("Request " ++ natDecimal requestId ++ " is not approved, skipping")] ∧
    invokedCommands (provisionResource cfg {} tool rng store fs requestId).events = [] := by
  unfold provisionResource
  simp [hreq, hst, invokedCommands]

/-- Witness for C3: a `provisioned` request is skipped untouched. -/
theorem provisionResource_skips_non_approved_witness :
    provisionedStore 4 = some provisionedRequest ∧
    provisionedRequest.status ≠ "approved" ∧
    ((provisionResource {} {} okTool zeroRng provisionedStore {} 4).outcome =
        .skippedReturn "Request not approved" ∧
      (provisionResource {} {} okTool zeroRng provisionedStore {} 4).store =
        provisionedStore ∧
      (provisionResource {} {} okTool zeroRng provisionedStore {} 4).fs = {} ∧
      (provisionResource {} {} okTool zeroRng provisionedStore {} 4).events =
        [.logged ("Request " ++ natDecimal 4 ++ " is not approved, skipping")] ∧
      invokedCommands (provisionResource {} {} okTool zeroRng provisionedStore {} 4).events =
        []) :=
  ⟨rfl, by decide,
   provisionResource_skips_non_approved {} okTool zeroRng provisionedStore {} 4
     provisionedRequest rfl (by decide)⟩

/-! ### C6 -/

theorem strHead_append (x y : String) {c : Char} (h : x.data.head? = some c) :
    (x ++ y).data.head? = some c := by
  rw [strData_append]
  cases hx : x.data with
  | nil => rw [hx] at h; cases h
  | cons a l => rw [hx] at h; simpa using h

/-- C6: for a request whose resource type is outside the recognized set,
the router returns `success=false` with the error
`Unknown resource type: <type>` — which mentions "unknown resource type"
up to letter case — and has zero side effects: the filesystem is returned
unchanged and the event trace is empty (no workspace creation, no tool
invocation). -/
theorem provisionByType_unknown_type (cfg : TfConfig) (tool : ToolBehavior)
    (rng : Nat → Nat) (fs : FS) (req : Request)
    (h : req.resource_type ∉ (["database", "s3", "k8s_namespace"] : List String)) :
    provisionByType cfg tool rng fs req =
      ({ success := false, error := "Unknown resource type: " ++ req.resource_type }, fs, []) ∧
    (provisionByType cfg tool rng fs req).1.success = false ∧
    "unknown resource type".data <+:
      ((provisionByType cfg tool rng fs req).1.error.data.map Char.toLower) := by
  have h1 : req.resource_type ≠ "database" := by intro e; exact h (by rw [e]; simp)
  have h2 : req.resource_type ≠ "s3" := by intro e; exact h (by rw [e]; simp)
  have h3 : req.resource_type ≠ "k8s_namespace" := by intro e; exact h (by rw [e]; simp)
  have hmain : provisionByType cfg tool rng fs req =
      ({ success := false, error := "Unknown resource type: " ++ req.resource_type }, fs, []) := by
    unfold provisionByType
    simp [h1, h2, h3]
  refine ⟨hmain, by rw [hmain], ?_⟩
  rw [hmain]
  show "unknown resource type".data <+:
    (("Unknown resource type: " ++ req.resource_type).data.map Char.toLower)
  rw [strData_append, List.map_append]
  have hlow : ("Unknown resource type: ").data.map Char.toLower =
      ("unknown resource type: ").data := by decide
  rw [hlow]
  exact List.IsPrefix.trans (by decide) (List.prefix_append _ _)

/-- Witness for C6 at the spec's own scenario type `unknown_type`. -/
theorem provisionByType_unknown_type_witness :
    ("unknown_type" ∉ (["database", "s3", "k8s_namespace"] : List String)) ∧
    (provisionByType {} okTool zeroRng {}
        { id := 9, name := "x", resource_type := "unknown_type", status := "approved" } =
      ({ success := false, error := "Unknown resource type: unknown_type" }, {}, []) ∧
    (provisionByType {} okTool zeroRng {}
        { id := 9, name := "x", resource_type := "unknown_type", status := "approved" }).1.success
        = false ∧
    "unknown resource type".data <+:
      ((provisionByType {} okTool zeroRng {}
        { id := 9, name := "x", resource_type := "unknown_type",
          status := "approved" }).1.error.data.map Char.toLower)) :=
  ⟨by decide,
   provisionByType_unknown_type {} okTool zeroRng {}
     { id := 9, name := "x", resource_type := "unknown_type", status := "approved" }
     (by decide)⟩

/-! ### C5 -/

theorem prefixHeadEq {α : Type} {l m : List α} (c : α) (h : l <+: m)
    (hc : l.head? = some c) : m.head? = some c := by
  obtain ⟨t, ht⟩ := h
  rw [← ht]
  cases l with
  | nil => cases hc
  | cons a l => simpa using hc

/-- Every error string produced by `_run_terraform_workflow` is empty or
starts with `T` ("Terraform ... failed" wrappers and the fixed timeout /
not-found texts). -/
theorem workflow_error_head (d : Bool) (tool : ToolBehavior) (fs : FS) (ws : String) :
    (runTerraformWorkflow d tool fs ws).1.error = "" ∨
    (runTerraformWorkflow d tool fs ws).1.error.data.head? = some 'T' := by
  unfold runTerraformWorkflow
  by_cases h1 : (runTerraform tool fs ws initCmd).1.success
  · by_cases h2 : (runTerraform tool fs ws planCmd).1.success
    · by_cases hd : d
      · simp [h1, h2, hd]
      · by_cases h3 : (runTerraform tool fs ws applyCmd).1.success
        · by_cases h4 : (runTerraform tool fs ws outputCmd).1.success
          · simp [h1, h2, hd, h3, h4]
          · simp [h1, h2, hd, h3, h4]
        · right
          simp only [h1, h2, hd, h3]
          simp only [if_true, if_false, Bool.false_eq_true, if_neg, reduceIte]
          exact strHead_append "Terraform apply failed:\n" _ rfl
    · right
      simp only [h1, h2, if_true, Bool.false_eq_true, reduceIte]
      exact strHead_append "Terraform plan failed:\n" _ rfl
  · right
    simp only [h1, Bool.false_eq_true, reduceIte]
    exact strHead_append "Terraform init failed:\n" _ rfl

theorem provisionDatabase_error_head (cfg : TfConfig) (tool : ToolBehavior)
    (rng : Nat → Nat) (fs : FS) (req : Request) :
    (provisionDatabase cfg tool rng fs req).1.error = "" ∨
    (provisionDatabase cfg tool rng fs req).1.error.data.head? = some 'T' :=
  workflow_error_head cfg.dryRunMode tool _ _

theorem provisionS3_error_head (cfg : TfConfig) (tool : ToolBehavior)
    (fs : FS) (req : Request) :
    (provisionS3 cfg tool fs req).1.error = "" ∨
    (provisionS3 cfg tool fs req).1.error.data.head? = some 'T' :=
  workflow_error_head cfg.dryRunMode tool _ _

theorem provisionK8sNamespace_error_head (cfg : TfConfig) (tool : ToolBehavior)
    (fs : FS) (req : Request) :
    (provisionK8sNamespace cfg tool fs req).1.error = "" ∨
    (provisionK8sNamespace cfg tool fs req).1.error.data.head? = some 'T' :=
  workflow_error_head cfg.dryRunMode tool _ _

theorem not_unknown_prefix_of_head {e : String}
    (h : e = "" ∨ e.data.head? = some 'T') :
    ¬ ("Unknown resource type".data <+: e.data) := by
  intro hpre
  rcases h with h | h
  · have := hpre.length_le
    rw [h] at this
    simp at this
  · have := prefixHeadEq 'U' hpre rfl
    rw [h] at this
    cases this

/-- C5 counterexample: the spec's enumeration names `object_storage` and
`namespace`, but the router recognizes neither — both fall into the
unknown-resource-type branch. -/
theorem provisionByType_spec_names_counterexample :
    (provisionByType {} okTool zeroRng {}
        { id := 2, name := "bucket", resource_type := "object_storage",
          status := "approved" }).1 =
      { success := false, error := "Unknown resource type: object_storage" } ∧
    (provisionByType {} okTool zeroRng {}
        { id := 3, name := "ns", resource_type := "namespace",
          status := "approved" }).1 =
      { success := false, error := "Unknown resource type: namespace" } := by
  decide

/-- C5 amended: the closed enumeration actually recognized by the router is
the literal strings `database`, `s3` and `k8s_namespace` (the spec's
abstract names object_storage and namespace correspond to the code's `s3`
and `k8s_namespace`); for these the router dispatches to the matching
generator and never returns the unknown-resource-type error. -/
theorem provisionByType_dispatch (cfg : TfConfig) (tool : ToolBehavior)
    (rng : Nat → Nat) (fs : FS) (req : Request)
    (h : req.resource_type ∈ (["database", "s3", "k8s_namespace"] : List String)) :
    ((req.resource_type = "database" →
        provisionByType cfg tool rng fs req = provisionDatabase cfg tool rng fs req) ∧
     (req.resource_type = "s3" →
        provisionByType cfg tool rng fs req = provisionS3 cfg tool fs req) ∧
     (req.resource_type = "k8s_namespace" →
        provisionByType cfg tool rng fs req = provisionK8sNamespace cfg tool fs req)) ∧
    ¬ ("Unknown resource type".data <+: (provisionByType cfg tool rng fs req).1.error.data) := by
  simp only [List.mem_cons, List.mem_singleton, List.not_mem_nil, or_false] at h
  rcases h with h | h | h
  · have hd : provisionByType cfg tool rng fs req = provisionDatabase cfg tool rng fs req := by
      unfold provisionByType; simp [h]
    refine ⟨⟨fun _ => hd, fun h2 => absurd (h.symm.trans h2) (by decide),
      fun h3 => absurd (h.symm.trans h3) (by decide)⟩, ?_⟩
    rw [hd]
    exact not_unknown_prefix_of_head (provisionDatabase_error_head cfg tool rng fs req)
  · have hd : provisionByType cfg tool rng fs req = provisionS3 cfg tool fs req := by
      unfold provisionByType; simp [h]
    refine ⟨⟨fun h1 => absurd (h.symm.trans h1) (by decide), fun _ => hd,
      fun h3 => absurd (h.symm.trans h3) (by decide)⟩, ?_⟩
    rw [hd]
    exact not_unknown_prefix_of_head (provisionS3_error_head cfg tool fs req)
  · have hd : provisionByType cfg tool rng fs req = provisionK8sNamespace cfg tool fs req := by
      unfold provisionByType; simp [h]
    refine ⟨⟨fun h1 => absurd (h.symm.trans h1) (by decide),
      fun h2 => absurd (h.symm.trans h2) (by decide), fun _ => hd⟩, ?_⟩
    rw [hd]
    exact not_unknown_prefix_of_head (provisionK8sNamespace_error_head cfg tool fs req)

/-- Witness for C5 amended at a concrete database request. -/
theorem provisionByType_dispatch_witness :
    (sampleDbRequest.resource_type ∈ (["database", "s3", "k8s_namespace"] : List String)) ∧
    (provisionByType {} okTool zeroRng {} sampleDbRequest =
      provisionDatabase {} okTool zeroRng {} sampleDbRequest) ∧
    ¬ ("Unknown resource type".data <+:
        (provisionByType {} okTool zeroRng {} sampleDbRequest).1.error.data) := by
  have h := provisionByType_dispatch {} okTool zeroRng {} sampleDbRequest (by decide)
  exact ⟨by decide, h.1.1 rfl, h.2⟩

/-! ### C2 -/

theorem invokedCommands_append (a b : List Event) :
    invokedCommands (a ++ b) = invokedCommands a ++ invokedCommands b := by
  unfold invokedCommands
  exact List.filterMap_append a b _

theorem invokedCommands_cons_logged (m : String) (l : List Event) :
    invokedCommands (Event.logged m :: l) = invokedCommands l := by
  simp [invokedCommands]

theorem invoked_runTerraform (tool : ToolBehavior) (fs : FS) (ws : String)
    (cmd : List String) : invokedCommands (runTerraform tool fs ws cmd).2 = [cmd] := by
  unfold runTerraform
  cases tool fs ws cmd with
  | completed rc out err =>
      by_cases h : rc = 0 <;> simp [h, invokedCommands]
  | timedOut => simp [invokedCommands]
  | notFound => simp [invokedCommands]

/-- C2: with dry-run enabled, the workflow invokes `init` (and `plan` when
init succeeded) but never `apply` — the invocation trace is exactly
`[init]` or `[init, plan]`, no invoked subcommand is `apply` — and when
both init and plan succeed it returns success carrying the captured plan
text (truncated at 2000 characters) inside its output. -/
theorem runTerraformWorkflow_dryRun_never_applies (tool : ToolBehavior) (fs : FS)
    (ws : String) :
    (invokedCommands (runTerraformWorkflow true tool fs ws).2 = [initCmd] ∨
     invokedCommands (runTerraformWorkflow true tool fs ws).2 = [initCmd, planCmd]) ∧
    (∀ c ∈ invokedCommands (runTerraformWorkflow true tool fs ws).2,
      c.head? ≠ some "apply") ∧
    ((runTerraform tool fs ws initCmd).1.success = true →
     (runTerraform tool fs ws planCmd).1.success = true →
     (runTerraformWorkflow true tool fs ws).1 =
       { success := true,
         output := "[DRY RUN] Plan completed successfully.\nWorkspace: " ++ ws ++
           "\n\nPlan output:\n" ++ strTake 2000 (runTerraform tool fs ws planCmd).1.output }) := by
  have htrace : invokedCommands (runTerraformWorkflow true tool fs ws).2 = [initCmd] ∨
      invokedCommands (runTerraformWorkflow true tool fs ws).2 = [initCmd, planCmd] := by
    unfold runTerraformWorkflow
    by_cases h1 : (runTerraform tool fs ws initCmd).1.success
    · by_cases h2 : (runTerraform tool fs ws planCmd).1.success
      · right
        have hnil : invokedCommands [Event.logged "DRY RUN MODE: Skipping terraform apply"] =
            [] := rfl
        simp [h1, h2, invokedCommands_cons_logged, invokedCommands_append,
          invoked_runTerraform, hnil]
      · right
        simp [h1, h2, invokedCommands_cons_logged, invokedCommands_append,
          invoked_runTerraform]
    · left
      simp [h1, invokedCommands_cons_logged, invokedCommands_append, invoked_runTerraform]
  refine ⟨htrace, ?_, ?_⟩
  · intro c hc
    rcases htrace with ht | ht <;> rw [ht] at hc
    · simp only [List.mem_singleton] at hc
      rw [hc]
      decide
    · simp only [List.mem_cons, List.mem_singleton] at hc
      rcases hc with hc | hc
      · rw [hc]; decide
      · simp only [List.not_mem_nil, or_false] at hc
        rw [hc]; decide
  · intro h1 h2
    unfold runTerraformWorkflow
    simp [h1, h2]

/-- Witness for C2 with a tool whose init and plan both succeed. -/
theorem runTerraformWorkflow_dryRun_witness :
    ((runTerraform okTool {} "w" initCmd).1.success = true ∧
     (runTerraform okTool {} "w" planCmd).1.success = true) ∧
    (invokedCommands (runTerraformWorkflow true okTool {} "w").2 = [initCmd, planCmd]) ∧
    (runTerraformWorkflow true okTool {} "w").1 =
      { success := true,
        output := "[DRY RUN] Plan completed successfully.\nWorkspace: w\n\nPlan output:\nplandone" } := by
  have h := runTerraformWorkflow_dryRun_never_applies okTool {} "w"
  refine ⟨⟨by decide, by decide⟩, ?_, ?_⟩
  · rcases h.1 with ht | ht
    · exact absurd ht (by decide)
    · exact ht
  · have := h.2.2 (by decide) (by decide)
    rw [this]
    decide

/-! ### C4 -/

theorem provisionRescue_outcome (f : Faults) (store : Store) (fs : FS)
    (requestId : Nat) (evs : List Event) :
    (provisionRescue f store fs requestId evs).outcome = .retryRaised 60 := by
  unfold provisionRescue
  by_cases hr : f.rescueFails
  · simp [hr]
  · cases hs : store requestId <;> simp [hr, hs]

/-- C4: whenever an execution of `provision_resource` completes normally
after claiming the request (outcome `finished`), the store holds the
request at a terminal status — exactly `provisioned` on generator success
and `failed` otherwise — and never leaves it at `provisioning`. -/
theorem provisionResource_commits_terminal_status (cfg : TfConfig) (f : Faults)
    (tool : ToolBehavior) (rng : Nat → Nat) (store : Store) (fs : FS)
    (requestId : Nat) (r : GenResult)
    (h : (provisionResource cfg f tool rng store fs requestId).outcome = .finished r) :
    ∃ req', (provisionResource cfg f tool rng store fs requestId).store requestId =
        some req' ∧
      (req'.status = "provisioned" ∨ req'.status = "failed") ∧
      req'.status ≠ "provisioning" ∧
      req'.status = (if r.success then "provisioned" else "failed") := by
  revert h
  unfold provisionResource
  split
  · intro h
    rw [provisionRescue_outcome] at h
    simp at h
  · split
    · intro h; simp at h
    · split
      · intro h; simp at h
      · split
        · intro h
          rw [provisionRescue_outcome] at h
          simp at h
        · split
          · intro h
            rw [provisionRescue_outcome] at h
            simp at h
          · split
            · intro h
              rw [provisionRescue_outcome] at h
              simp at h
            · intro h
              simp only [TaskOutcome.finished.injEq] at h
              subst h
              rename_i request heq hst hc hg hfc
              cases hs : (provisionByType cfg tool rng fs request).1.success
              · exact ⟨{ request with
                    status := "failed",
                    admin_notes := some (request.admin_notes.getD "" ++
                      "\n\nProvisioning failed:\n" ++
                      (provisionByType cfg tool rng fs request).1.error) },
                  by simp [setReq, hs], Or.inr rfl,
                  by show ("failed" : String) ≠ "provisioning"; decide, by simp [hs]⟩
              · exact ⟨{ request with
                    status := "provisioned",
                    admin_notes := some (request.admin_notes.getD "" ++
                      "\n\nProvisioned successfully:\n" ++
                      (provisionByType cfg tool rng fs request).1.output) },
                  by simp [setReq, hs], Or.inl rfl,
                  by show ("provisioned" : String) ≠ "provisioning"; decide, by simp [hs]⟩

/-- Witness for C4: a completed dry-run attempt leaves status `provisioned`. -/
theorem provisionResource_commits_terminal_status_witness :
    ((provisionResource {} {} okTool zeroRng sampleStore {} 1).outcome =
      .finished
        { success := true,
          output := "[DRY RUN] Plan completed successfully.\nWorkspace: terraform/workspaces/request-1\n\nPlan output:\nplandone" }) ∧
    (∃ req', (provisionResource {} {} okTool zeroRng sampleStore {} 1).store 1 =
        some req' ∧
      (req'.status = "provisioned" ∨ req'.status = "failed") ∧
      req'.status ≠ "provisioning" ∧
      req'.status =
        (if ({ success := true,
               output := "[DRY RUN] Plan completed successfully.\nWorkspace: terraform/workspaces/request-1\n\nPlan output:\nplandone" } :
              GenResult).success then "provisioned" else "failed")) :=
  ⟨by decide,
   provisionResource_commits_terminal_status {} {} okTool zeroRng sampleStore {} 1 _
     (by decide)⟩

/-! ### C1 -/

/-- A request parked at `provisioning`, as a second racing attempt sees it. -/
def provisioningRequest : Request :=
  { id := 5, name := "r", resource_type := "database", status := "provisioning" }

/-- A store holding only `provisioningRequest` under id 5. -/
def provisioningStore : Store := fun j => if j = 5 then some provisioningRequest else none

/-- C1 counterexample: the claim-phase guard of `provision_resource` is a
plain read-check followed by a blind write, not a compare-and-set; under
the interleaving read-A, read-B, write-A, write-B both racing attempts
observe `approved` and both proceed — refuting "only one observes
`approved` and proceeds". -/
theorem claimRace_counterexample :
    (runRace "approved" [false, true, false, true]).attemptA.outcome = some .proceeded ∧
    (runRace "approved" [false, true, false, true]).attemptB.outcome = some .proceeded ∧
    (runRace "approved" [false, true, false, true]).status = "provisioning" := by
  decide

/-- C1 amended: the `approved → provisioning` transition is a non-atomic
check-then-write, so mutual exclusion holds only when the attempts are
serialized: an attempt that reads after the winner committed observes
`provisioning` and returns `Skipped` — with reason `Request not approved`
(the code has no `already in progress` outcome) and no store change —
while interleaved reads let both attempts proceed. -/
theorem claimGuard_check_then_write (cfg : TfConfig) (tool : ToolBehavior)
    (rng : Nat → Nat) (store : Store) (fs : FS) (requestId : Nat) (req : Request)
    (hreq : store requestId = some req) (hst : req.status = "provisioning") :
    ((provisionResource cfg {} tool rng store fs requestId).outcome =
        .skippedReturn "Request not approved" ∧
      (provisionResource cfg {} tool rng store fs requestId).store = store) ∧
    ((runRace "approved" [false, false, true, true]).attemptA.outcome = some .proceeded ∧
      (runRace "approved" [false, false, true, true]).attemptB.outcome = some .skipped) := by
  have hne : req.status ≠ "approved" := by rw [hst]; decide
  constructor
  · unfold provisionResource
    simp [hreq, hne]
  · exact ⟨by decide, by decide⟩

/-- Witness for C1 amended: the late attempt on a `provisioning` request. -/
theorem claimGuard_check_then_write_witness :
    provisioningStore 5 = some provisioningRequest ∧
    provisioningRequest.status = "provisioning" ∧
    (((provisionResource {} {} okTool zeroRng provisioningStore {} 5).outcome =
        .skippedReturn "Request not approved" ∧
      (provisionResource {} {} okTool zeroRng provisioningStore {} 5).store =
        provisioningStore) ∧
     ((runRace "approved" [false, false, true, true]).attemptA.outcome = some .proceeded ∧
      (runRace "approved" [false, false, true, true]).attemptB.outcome = some .skipped)) :=
  ⟨rfl, rfl,
   claimGuard_check_then_write {} okTool zeroRng provisioningStore {} 5
     provisioningRequest rfl rfl⟩

/-! ### C7 -/

/-- C7 counterexample: a tool timeout does not re-enqueue the attempt — the
task completes normally in a single execution, the timeout is wrapped into
a failure result, and the request is finalized as `failed` with no retry. -/
theorem toolTimeout_no_retry_counterexample :
    (provisionResource {} {} timeoutTool zeroRng sampleStore {} 1).outcome =
      .finished
        { success := false,
          error := "Terraform init failed:\nTerraform command timed out after 10 minutes" } ∧
    ((provisionResource {} {} timeoutTool zeroRng sampleStore {} 1).store 1).map
      Request.status = some "failed" ∧
    (celeryProvision {} {} timeoutTool zeroRng sampleStore {} 1).2 = 1 := by
  decide

theorem retryLoop_succ (cfg : TfConfig) (f : Faults) (tool : ToolBehavior)
    (rng : Nat → Nat) (requestId fuel : Nat) (store : Store) (fs : FS) :
    retryLoop cfg f tool rng requestId (Nat.succ fuel) store fs =
      (let r := provisionResource cfg f tool rng store fs requestId
       if isRetryRaised r.outcome then
         let rest := retryLoop cfg f tool rng requestId fuel r.store r.fs
         (rest.1, rest.2 + 1)
       else (r, 1)) := rfl

/-- An execution that does not raise `self.retry` runs exactly once under
the Celery wrapper. -/
theorem celeryProvision_one (cfg : TfConfig) (f : Faults) (tool : ToolBehavior)
    (rng : Nat → Nat) (store : Store) (fs : FS) (requestId : Nat)
    (h : isRetryRaised
      (provisionResource cfg f tool rng store fs requestId).outcome = false) :
    (celeryProvision cfg f tool rng store fs requestId).2 = 1 := by
  unfold celeryProvision
  rw [show maxRetries = Nat.succ 2 from rfl, retryLoop_succ]
  simp [h]

/-- Any execution path of `provision_resource` that finds the request not
`approved` under a working fetch returns the skip record untouched. -/
theorem provisionResource_skip_helper (cfg : TfConfig) (f : Faults)
    (tool : ToolBehavior) (rng : Nat → Nat) (store : Store) (fs : FS)
    (requestId : Nat) (req : Request) (hf : f.fetchFails = false)
    (hreq : store requestId = some req) (hst : req.status ≠ "approved") :
    provisionResource cfg f tool rng store fs requestId =
      { outcome := .skippedReturn "Request not approved", store := store, fs := fs,
        events := [.logged ("Request " ++ natDecimal requestId ++
          " is not approved, skipping")] } := by
  unfold provisionResource
  simp [hf, hreq, hst]

/-- C7 amended: in the code every tool-level failure — timeout
(`subprocess.TimeoutExpired`), non-zero exit (ToolExecutionError shape) and
absent binary (`FileNotFoundError`, ToolNotFound shape) — is caught inside
`_run_terraform` and converted into a failure result, so the attempt
finalizes the request as `failed` immediately, in a single execution, and
is never re-enqueued; indeed under a working store no tool behavior
whatsoever reaches the retry wrapper, and a missing request returns an
error without touching the store or filesystem. Only an unexpected
exception (a transient store/I-O fault) raises `self.retry` with a
60-second countdown under the task's `max_retries = 3` cap — and since the
failing attempt already marked the request `failed`, the re-executed
attempt observes a non-approved status and skips, so a persistent
transient fault ends after two executions. -/
theorem provisionRetry_semantics (cfg : TfConfig) (store : Store) (fs : FS)
    (requestId : Nat) (req : Request) (f : Faults)
    (hreq : store requestId = some req) (happ : req.status = "approved")
    (hdb : req.resource_type = "database")
    (hf1 : f.fetchFails = false) (hf2 : f.claimCommitFails = false)
    (hf3 : f.generatorRaises = true) (hf4 : f.rescueFails = false) :
    ((provisionResource cfg {} timeoutTool zeroRng store fs requestId).outcome =
        .finished
          { success := false,
            error := "Terraform init failed:\nTerraform command timed out after 10 minutes" } ∧
      ((provisionResource cfg {} timeoutTool zeroRng store fs requestId).store
          requestId).map Request.status = some "failed" ∧
      (celeryProvision cfg {} timeoutTool zeroRng store fs requestId).2 = 1) ∧
    ((provisionResource cfg {} execFailTool zeroRng store fs requestId).outcome =
        .finished
          { success := false, error := "Terraform init failed:\nexit status 1" } ∧
      ((provisionResource cfg {} execFailTool zeroRng store fs requestId).store
          requestId).map Request.status = some "failed" ∧
      (celeryProvision cfg {} execFailTool zeroRng store fs requestId).2 = 1) ∧
    ((provisionResource cfg {} notFoundTool zeroRng store fs requestId).outcome =
        .finished
          { success := false,
            error :=
              "Terraform init failed:\nTerraform CLI not found. Please install Terraform." } ∧
      ((provisionResource cfg {} notFoundTool zeroRng store fs requestId).store
          requestId).map Request.status = some "failed" ∧
      (celeryProvision cfg {} notFoundTool zeroRng store fs requestId).2 = 1) ∧
    (∀ (tool : ToolBehavior) (rng : Nat → Nat),
      isRetryRaised (provisionResource cfg {} tool rng store fs requestId).outcome =
        false) ∧
    (∀ (tool : ToolBehavior) (rng : Nat → Nat) (requestId2 : Nat),
      store requestId2 = none →
        (provisionResource cfg {} tool rng store fs requestId2).outcome =
            .errorReturn "Request not found" ∧
          (provisionResource cfg {} tool rng store fs requestId2).store = store ∧
          (provisionResource cfg {} tool rng store fs requestId2).fs = fs ∧
          (celeryProvision cfg {} tool rng store fs requestId2).2 = 1) ∧
    (provisionResource cfg f timeoutTool zeroRng store fs requestId).outcome =
      .retryRaised 60 ∧
    maxRetries = 3 ∧
    (celeryProvision cfg f timeoutTool zeroRng store fs requestId).2 = 2 := by
  have hstep : (provisionResource cfg f timeoutTool zeroRng store fs requestId).outcome =
      .retryRaised 60 ∧
      (provisionResource cfg f timeoutTool zeroRng store fs requestId).store requestId =
        some { req with
          status := "failed",
          admin_notes := some ((req.admin_notes.getD "") ++
            "\n\nProvisioning error: " ++ f.faultMsg) } := by
    unfold provisionResource provisionRescue
    simp [hreq, happ, hf1, hf2, hf3, hf4, setReq]
  have hnoretry : ∀ (tool : ToolBehavior) (rng : Nat → Nat),
      isRetryRaised (provisionResource cfg {} tool rng store fs requestId).outcome =
        false := by
    intro tool rng
    unfold provisionResource
    simp [hreq, happ, isRetryRaised]
  have hmissing : ∀ (tool : ToolBehavior) (rng : Nat → Nat) (requestId2 : Nat),
      store requestId2 = none →
        (provisionResource cfg {} tool rng store fs requestId2).outcome =
            .errorReturn "Request not found" ∧
          (provisionResource cfg {} tool rng store fs requestId2).store = store ∧
          (provisionResource cfg {} tool rng store fs requestId2).fs = fs := by
    intro tool rng requestId2 hnone
    unfold provisionResource
    simp [hnone]
  refine ⟨⟨?_, ?_, celeryProvision_one _ _ _ _ _ _ _ (hnoretry _ _)⟩,
    ⟨?_, ?_, celeryProvision_one _ _ _ _ _ _ _ (hnoretry _ _)⟩,
    ⟨?_, ?_, celeryProvision_one _ _ _ _ _ _ _ (hnoretry _ _)⟩,
    hnoretry,
    fun tool rng requestId2 hnone =>
      ⟨(hmissing tool rng requestId2 hnone).1, (hmissing tool rng requestId2 hnone).2.1,
       (hmissing tool rng requestId2 hnone).2.2,
       celeryProvision_one _ _ _ _ _ _ _
         (by rw [(hmissing tool rng requestId2 hnone).1]; rfl)⟩,
    hstep.1, rfl, ?_⟩
  · unfold provisionResource
    simp [hreq, happ, provisionByType, hdb, provisionDatabase, createWorkspace,
      writeProviderConfig, writeFile, runTerraformWorkflow, runTerraform, timeoutTool]
  · unfold provisionResource
    simp [hreq, happ, provisionByType, hdb, provisionDatabase, createWorkspace,
      writeProviderConfig, writeFile, runTerraformWorkflow, runTerraform, timeoutTool,
      setReq]
  · unfold provisionResource
    simp [hreq, happ, provisionByType, hdb, provisionDatabase, createWorkspace,
      writeProviderConfig, writeFile, runTerraformWorkflow, runTerraform, execFailTool]
  · unfold provisionResource
    simp [hreq, happ, provisionByType, hdb, provisionDatabase, createWorkspace,
      writeProviderConfig, writeFile, runTerraformWorkflow, runTerraform, execFailTool,
      setReq]
  · unfold provisionResource
    simp [hreq, happ, provisionByType, hdb, provisionDatabase, createWorkspace,
      writeProviderConfig, writeFile, runTerraformWorkflow, runTerraform, notFoundTool]
  · unfold provisionResource
    simp [hreq, happ, provisionByType, hdb, provisionDatabase, createWorkspace,
      writeProviderConfig, writeFile, runTerraformWorkflow, runTerraform, notFoundTool,
      setReq]
  · have hskip := provisionResource_skip_helper cfg f timeoutTool zeroRng
      (provisionResource cfg f timeoutTool zeroRng store fs requestId).store
      (provisionResource cfg f timeoutTool zeroRng store fs requestId).fs
      requestId _ hf1 hstep.2 (by show ("failed" : String) ≠ "approved"; decide)
    unfold celeryProvision
    rw [show maxRetries = Nat.succ 2 from rfl, retryLoop_succ]
    simp only [hstep.1, isRetryRaised, if_true]
    rw [show (2 : Nat) = Nat.succ 1 from rfl, retryLoop_succ]
    rw [hskip]
    simp [isRetryRaised]


/-- Witness for C7 amended at concrete inputs. -/
theorem provisionRetry_semantics_witness :
    (sampleStore 1 = some sampleDbRequest ∧
     sampleDbRequest.status = "approved" ∧
     sampleDbRequest.resource_type = "database" ∧
     sampleStore 2 = none) ∧
    (((provisionResource {} {} timeoutTool zeroRng sampleStore {} 1).outcome =
        .finished
          { success := false,
            error := "Terraform init failed:\nTerraform command timed out after 10 minutes" } ∧
      ((provisionResource {} {} timeoutTool zeroRng sampleStore {} 1).store 1).map
        Request.status = some "failed" ∧
      (celeryProvision {} {} timeoutTool zeroRng sampleStore {} 1).2 = 1) ∧
     ((provisionResource {} {} execFailTool zeroRng sampleStore {} 1).outcome =
        .finished
          { success := false, error := "Terraform init failed:\nexit status 1" } ∧
      ((provisionResource {} {} execFailTool zeroRng sampleStore {} 1).store 1).map
        Request.status = some "failed" ∧
      (celeryProvision {} {} execFailTool zeroRng sampleStore {} 1).2 = 1) ∧
     ((provisionResource {} {} notFoundTool zeroRng sampleStore {} 1).outcome =
        .finished
          { success := false,
            error :=
              "Terraform init failed:\nTerraform CLI not found. Please install Terraform." } ∧
      ((provisionResource {} {} notFoundTool zeroRng sampleStore {} 1).store 1).map
        Request.status = some "failed" ∧
      (celeryProvision {} {} notFoundTool zeroRng sampleStore {} 1).2 = 1) ∧
     isRetryRaised (provisionResource {} {} okTool zeroRng sampleStore {} 1).outcome =
        false ∧
     ((provisionResource {} {} okTool zeroRng sampleStore {} 2).outcome =
          .errorReturn "Request not found" ∧
        (provisionResource {} {} okTool zeroRng sampleStore {} 2).store = sampleStore ∧
        (provisionResource {} {} okTool zeroRng sampleStore {} 2).fs = ({} : FS) ∧
        (celeryProvision {} {} okTool zeroRng sampleStore {} 2).2 = 1) ∧
     (provisionResource {} { generatorRaises := true } timeoutTool zeroRng sampleStore
        {} 1).outcome = .retryRaised 60 ∧
     maxRetries = 3 ∧
     (celeryProvision {} { generatorRaises := true } timeoutTool zeroRng sampleStore
        {} 1).2 = 2) :=
  have h := provisionRetry_semantics {} sampleStore {} 1 sampleDbRequest
    { generatorRaises := true } rfl rfl rfl rfl rfl rfl rfl
  ⟨⟨rfl, rfl, rfl, rfl⟩,
   h.1, h.2.1, h.2.2.1, h.2.2.2.1 okTool zeroRng,
   h.2.2.2.2.1 okTool zeroRng 2 rfl, h.2.2.2.2.2⟩

/-! ### C8 -/

/-- C8: `destroy_resource` demands an existing workspace — its absence
yields the workspace-not-found error with store, filesystem and tool
untouched; when the tool's destroy step succeeds the request status becomes
`destroyed` and the workspace directory is recursively removed; when it
fails the workspace directory still exists. -/
theorem destroyResource_spec (cfg : TfConfig) (tool : ToolBehavior) (store : Store)
    (fs : FS) (requestId : Nat) (req : Request) (hreq : store requestId = some req) :
    (workspacePath cfg.workspacesRoot requestId ∉ fs.dirs →
      destroyResource cfg tool store fs requestId =
        { outcome := .errorReturn "Workspace not found", store := store, fs := fs,
          events := [] }) ∧
    (workspacePath cfg.workspacesRoot requestId ∈ fs.dirs →
      ((runTerraform tool fs (workspacePath cfg.workspacesRoot requestId)
          destroyCmd).1.success = true →
        (∃ req', (destroyResource cfg tool store fs requestId).store requestId =
            some req' ∧ req'.status = "destroyed") ∧
        workspacePath cfg.workspacesRoot requestId ∉
          (destroyResource cfg tool store fs requestId).fs.dirs) ∧
      ((runTerraform tool fs (workspacePath cfg.workspacesRoot requestId)
          destroyCmd).1.success = false →
        (destroyResource cfg tool store fs requestId).fs = fs ∧
        workspacePath cfg.workspacesRoot requestId ∈
          (destroyResource cfg tool store fs requestId).fs.dirs)) := by
  refine ⟨?_, ?_⟩
  · intro habs
    unfold destroyResource
    simp [habs]
  · intro hpres
    refine ⟨?_, ?_⟩
    · intro hsucc
      unfold destroyResource
      constructor
      · refine ⟨{ req with status := "destroyed" }, ?_, rfl⟩
        simp [hpres, hsucc, hreq, setReq]
      · simp [hpres, hsucc, rmtreeFS, List.mem_filter]
    · intro hfail
      unfold destroyResource
      constructor
      · simp [hpres, hfail]
      · simp [hpres, hfail, hreq]

/-- Witness for C8: absent workspace, successful destroy, failed destroy. -/
theorem destroyResource_spec_witness :
    (sampleStore 1 = some sampleDbRequest) ∧
    destroyResource {} okTool sampleStore {} 1 =
      { outcome := .errorReturn "Workspace not found", store := sampleStore, fs := {},
        events := [] } ∧
    ((∃ req', (destroyResource {} okTool sampleStore
          { dirs := ["terraform/workspaces/request-1"] } 1).store 1 = some req' ∧
        req'.status = "destroyed") ∧
      workspacePath ({} : TfConfig).workspacesRoot 1 ∉
        (destroyResource {} okTool sampleStore
          { dirs := ["terraform/workspaces/request-1"] } 1).fs.dirs) ∧
    ((destroyResource {} timeoutTool sampleStore
        { dirs := ["terraform/workspaces/request-1"] } 1).fs =
        { dirs := ["terraform/workspaces/request-1"] } ∧
      workspacePath ({} : TfConfig).workspacesRoot 1 ∈
        (destroyResource {} timeoutTool sampleStore
          { dirs := ["terraform/workspaces/request-1"] } 1).fs.dirs) :=
  ⟨rfl,
   (destroyResource_spec {} okTool sampleStore {} 1 sampleDbRequest rfl).1 (by decide),
   (destroyResource_spec {} okTool sampleStore { dirs := ["terraform/workspaces/request-1"] }
      1 sampleDbRequest rfl).2 (by decide) |>.1 (by decide),
   (destroyResource_spec {} timeoutTool sampleStore
      { dirs := ["terraform/workspaces/request-1"] } 1 sampleDbRequest rfl).2
      (by decide) |>.2 (by decide)⟩

/-! ### C9 -/

theorem generatePassword_length (rng : Nat → Nat) :
    (generatePassword rng 16).data.length = 16 := by
  simp [generatePassword]

theorem generatePassword_alnum (rng : Nat → Nat) : pwAlnum (generatePassword rng 16) := by
  intro c hc
  simp only [generatePassword, List.mem_map, List.mem_range] at hc
  obtain ⟨i, _, rfl⟩ := hc
  have hlt : rng i % passwordAlphabet.data.length < passwordAlphabet.data.length :=
    Nat.mod_lt _ (by decide)
  rw [List.getD_eq_getElem _ _ hlt]
  exact List.getElem_mem _

/-- The tool's captured texts never contain the secret — and neither does
the human-readable summary the output step formats from the captured
stdout. The third conjunct is not implied by the first: `json.loads`
decodes escape sequences, so a stdout that is free of the secret can still
decode to text containing it (e.g. with every character escaped as `\uXXXX`). -/
def toolSafe (pw : String) (tool : ToolBehavior) : Prop :=
  ∀ fs ws cmd rc out err, tool fs ws cmd = .completed rc out err →
    ¬ occursIn pw out ∧ ¬ occursIn pw err ∧ ¬ occursIn pw (formatOutputs out)

theorem occursIn_strTake {pw s : String} {n : Nat} (h : occursIn pw (strTake n s)) :
    occursIn pw s :=
  List.IsInfix.trans h ( List.take_prefix n s.data).isInfix

theorem occursIn_self (pw : String) : occursIn pw pw := ⟨[], [], by simp⟩

theorem runTerraform_error_safe {pw : String} (hlen : pw.data.length = 16)
    (hpw : pwAlnum pw) {tool : ToolBehavior} (htool : toolSafe pw tool)
    (fs : FS) (ws : String) (cmd : List String) :
    ¬ occursIn pw (runTerraform tool fs ws cmd).1.error := by
  unfold runTerraform
  cases h : tool fs ws cmd with
  | completed rc out err =>
      obtain ⟨hout, herr, _hfmt⟩ := htool fs ws cmd rc out err h
      by_cases hrc : rc = 0
      · simp only [hrc, if_pos rfl]
        exact not_occursIn_of_no_run hlen hpw
          (by decide : hasRun16 ("" : String).data = false)
      · simp only [if_neg hrc]
        by_cases he : err = ""
        · simpa [he] using hout
        · simpa [he] using herr
  | timedOut =>
      exact not_occursIn_of_no_run hlen hpw
        (by decide : hasRun16 ("Terraform command timed out after 10 minutes" : String).data =
          false)
  | notFound =>
      exact not_occursIn_of_no_run hlen hpw
        (by decide :
          hasRun16 ("Terraform CLI not found. Please install Terraform." : String).data =
          false)

theorem runTerraform_output_safe {pw : String} (hlen : pw.data.length = 16)
    (hpw : pwAlnum pw) {tool : ToolBehavior} (htool : toolSafe pw tool)
    (fs : FS) (ws : String) (cmd : List String) :
    ¬ occursIn pw (runTerraform tool fs ws cmd).1.output := by
  unfold runTerraform
  cases h : tool fs ws cmd with
  | completed rc out err =>
      obtain ⟨hout, _herr, _hfmt⟩ := htool fs ws cmd rc out err h
      by_cases hrc : rc = 0
      · simpa [hrc] using hout
      · simp only [if_neg hrc]
        exact not_occursIn_of_no_run hlen hpw
          (by decide : hasRun16 ("" : String).data = false)
  | timedOut =>
      exact not_occursIn_of_no_run hlen hpw
        (by decide : hasRun16 ("" : String).data = false)
  | notFound =>
      exact not_occursIn_of_no_run hlen hpw
        (by decide : hasRun16 ("" : String).data = false)

/-- The formatted summary of a `runTerraform` result's stdout is free of the
secret: on the non-zero-exit/timeout/not-found paths the captured output is
a constant, and on the success path `toolSafe`'s third conjunct applies. -/
theorem runTerraform_fmtOutput_safe {pw : String} (hlen : pw.data.length = 16)
    (hpw : pwAlnum pw) {tool : ToolBehavior} (htool : toolSafe pw tool)
    (fs : FS) (ws : String) (cmd : List String) :
    ¬ occursIn pw (formatOutputs (runTerraform tool fs ws cmd).1.output) := by
  unfold runTerraform
  cases h : tool fs ws cmd with
  | completed rc out err =>
      obtain ⟨_hout, _herr, hfmt⟩ := htool fs ws cmd rc out err h
      by_cases hrc : rc = 0
      · simpa [hrc] using hfmt
      · simp only [if_neg hrc]
        exact not_occursIn_of_no_run hlen hpw
          (by decide : hasRun16 (formatOutputs ("" : String)).data = false)
  | timedOut =>
      exact not_occursIn_of_no_run hlen hpw
        (by decide : hasRun16 (formatOutputs ("" : String)).data = false)
  | notFound =>
      exact not_occursIn_of_no_run hlen hpw
        (by decide : hasRun16 (formatOutputs ("" : String)).data = false)

theorem lastChar_helper {x y : String} (c0 : Char) (hy : y.data.getLast? = some c0)
    (hc0 : c0 ∉ passwordAlphabet.data) :
    ∀ c, (x ++ y).data.getLast? = some c → c ∉ passwordAlphabet.data := by
  intro c hc
  rw [strGetLastAppend x y (by intro hnil; rw [hnil] at hy; cases hy)] at hc
  rw [hy] at hc
  cases hc
  exact hc0

/-- A trace whose log lines never contain the secret and which writes no
file at all. -/
abbrev eventsSafe (pw : String) (evs : List Event) : Prop :=
  (∀ m, Event.logged m ∈ evs → ¬ occursIn pw m) ∧
  (∀ p c, Event.fileWritten p c ∉ evs)

theorem eventsSafe_nil (pw : String) : eventsSafe pw [] :=
  ⟨fun _ hm => absurd hm (List.not_mem_nil _), fun _ _ hc => (List.not_mem_nil _) hc⟩

theorem eventsSafe_append {pw : String} {a b : List Event}
    (ha : eventsSafe pw a) (hb : eventsSafe pw b) : eventsSafe pw (a ++ b) :=
  ⟨fun m hm => (List.mem_append.mp hm).elim (ha.1 m) (hb.1 m),
   fun p c hc => (List.mem_append.mp hc).elim (ha.2 p c) (hb.2 p c)⟩

theorem eventsSafe_cons_logged {pw m : String} {l : List Event}
    (hm : ¬ occursIn pw m) (hl : eventsSafe pw l) :
    eventsSafe pw (.logged m :: l) := by
  constructor
  · intro m' hm'
    rcases List.mem_cons.mp hm' with h | h
    · injection h with h
      rw [h]; exact hm
    · exact hl.1 m' h
  · intro p c hc
    rcases List.mem_cons.mp hc with h | h
    · cases h
    · exact hl.2 p c h

theorem eventsSafe_cons_toolInvoked {pw : String} {ws : String} {cmd : List String}
    {l : List Event} (hl : eventsSafe pw l) :
    eventsSafe pw (.toolInvoked ws cmd :: l) := by
  constructor
  · intro m' hm'
    rcases List.mem_cons.mp hm' with h | h
    · cases h
    · exact hl.1 m' h
  · intro p c hc
    rcases List.mem_cons.mp hc with h | h
    · cases h
    · exact hl.2 p c h

theorem runTerraform_eventsSafe {pw : String} (hlen : pw.data.length = 16)
    (hpw : pwAlnum pw) {tool : ToolBehavior} (htool : toolSafe pw tool)
    (fs : FS) (ws : String) (cmd : List String)
    (hcmd : ¬ occursIn pw ("Running: terraform " ++ joinArgs cmd)) :
    eventsSafe pw (runTerraform tool fs ws cmd).2 := by
  unfold runTerraform
  cases h : tool fs ws cmd with
  | completed rc out err =>
      obtain ⟨hout, herr, _hfmt⟩ := htool fs ws cmd rc out err h
      by_cases hrc : rc = 0
      · simp only [hrc, if_pos rfl]
        exact eventsSafe_append
          (eventsSafe_cons_logged hcmd (eventsSafe_cons_toolInvoked (eventsSafe_nil pw)))
          (eventsSafe_cons_logged
            (not_occursIn_of_no_run hlen hpw
              (by decide : hasRun16 ("Terraform command succeeded" : String).data = false))
            (eventsSafe_nil pw))
      · simp only [if_neg hrc]
        exact eventsSafe_append
          (eventsSafe_cons_logged hcmd (eventsSafe_cons_toolInvoked (eventsSafe_nil pw)))
          (eventsSafe_cons_logged
            (pwFree_append_L hpw (by decide)
              (not_occursIn_of_no_run hlen hpw
                (by decide : hasRun16 ("Terraform command failed: " : String).data = false))
              herr)
            (eventsSafe_nil pw))
  | timedOut =>
      exact eventsSafe_cons_logged hcmd (eventsSafe_cons_toolInvoked (eventsSafe_nil pw))
  | notFound =>
      exact eventsSafe_append
        (eventsSafe_cons_logged hcmd (eventsSafe_cons_toolInvoked (eventsSafe_nil pw)))
        (eventsSafe_cons_logged
          (not_occursIn_of_no_run hlen hpw
            (by decide : hasRun16 ("Terraform not found" : String).data = false))
          (eventsSafe_nil pw))

theorem workflow_safe {pw : String} (hlen : pw.data.length = 16) (hpw : pwAlnum pw)
    (d : Bool) {tool : ToolBehavior} (htool : toolSafe pw tool) (fs : FS) (ws : String)
    (hws : ¬ occursIn pw ws) :
    eventsSafe pw (runTerraformWorkflow d tool fs ws).2 ∧
    ¬ occursIn pw (runTerraformWorkflow d tool fs ws).1.output ∧
    ¬ occursIn pw (runTerraformWorkflow d tool fs ws).1.error := by
  have hinit := runTerraform_eventsSafe hlen hpw htool fs ws initCmd
    (not_occursIn_of_no_run hlen hpw
      (by decide : hasRun16 ("Running: terraform " ++ joinArgs initCmd).data = false))
  have hplan := runTerraform_eventsSafe hlen hpw htool fs ws planCmd
    (not_occursIn_of_no_run hlen hpw
      (by decide : hasRun16 ("Running: terraform " ++ joinArgs planCmd).data = false))
  have happly := runTerraform_eventsSafe hlen hpw htool fs ws applyCmd
    (not_occursIn_of_no_run hlen hpw
      (by decide : hasRun16 ("Running: terraform " ++ joinArgs applyCmd).data = false))
  have houtput := runTerraform_eventsSafe hlen hpw htool fs ws outputCmd
    (not_occursIn_of_no_run hlen hpw
      (by decide : hasRun16 ("Running: terraform " ++ joinArgs outputCmd).data = false))
  have herr_init : ¬ occursIn pw ("Terraform init failed:\n" ++
      (runTerraform tool fs ws initCmd).1.error) :=
    pwFree_append_L hpw (by decide)
      (not_occursIn_of_no_run hlen hpw
        (by decide : hasRun16 ("Terraform init failed:\n" : String).data = false))
      (runTerraform_error_safe hlen hpw htool fs ws initCmd)
  have herr_plan : ¬ occursIn pw ("Terraform plan failed:\n" ++
      (runTerraform tool fs ws planCmd).1.error) :=
    pwFree_append_L hpw (by decide)
      (not_occursIn_of_no_run hlen hpw
        (by decide : hasRun16 ("Terraform plan failed:\n" : String).data = false))
      (runTerraform_error_safe hlen hpw htool fs ws planCmd)
  have herr_apply : ¬ occursIn pw ("Terraform apply failed:\n" ++
      (runTerraform tool fs ws applyCmd).1.error) :=
    pwFree_append_L hpw (by decide)
      (not_occursIn_of_no_run hlen hpw
        (by decide : hasRun16 ("Terraform apply failed:\n" : String).data = false))
      (runTerraform_error_safe hlen hpw htool fs ws applyCmd)
  have hdry : ¬ occursIn pw ("[DRY RUN] Plan completed successfully.\nWorkspace: " ++ ws ++
      "\n\nPlan output:\n" ++ strTake 2000 (runTerraform tool fs ws planCmd).1.output) := by
    have q1 : ¬ occursIn pw ("[DRY RUN] Plan completed successfully.\nWorkspace: " ++ ws) :=
      pwFree_append_L hpw (by decide)
        (not_occursIn_of_no_run hlen hpw
          (by decide :
            hasRun16 ("[DRY RUN] Plan completed successfully.\nWorkspace: " : String).data =
            false)) hws
    have q2 : ¬ occursIn pw ("[DRY RUN] Plan completed successfully.\nWorkspace: " ++ ws ++
        "\n\nPlan output:\n") :=
      pwFree_append_R hpw (by decide) q1
        (not_occursIn_of_no_run hlen hpw
          (by decide : hasRun16 ("\n\nPlan output:\n" : String).data = false))
    exact pwFree_append_L hpw (lastChar_helper '\n' rfl (by decide)) q2
      (fun h => runTerraform_output_safe hlen hpw htool fs ws planCmd (occursIn_strTake h))
  have hempty : ¬ occursIn pw "" :=
    not_occursIn_of_no_run hlen hpw (by decide : hasRun16 ("" : String).data = false)
  cases d with
  | true =>
      have hlog0 : ¬ occursIn pw
          ("Running Terraform in " ++ ws ++ " (DRY_RUN=" ++ "True" ++ ")") := by
        have h1 : ¬ occursIn pw ("Running Terraform in " ++ ws) :=
          pwFree_append_L hpw (by decide)
            (not_occursIn_of_no_run hlen hpw
              (by decide : hasRun16 ("Running Terraform in " : String).data = false)) hws
        have h2 : ¬ occursIn pw ("Running Terraform in " ++ ws ++ " (DRY_RUN=") :=
          pwFree_append_R hpw (by decide) h1
            (not_occursIn_of_no_run hlen hpw
              (by decide : hasRun16 (" (DRY_RUN=" : String).data = false))
        have h3 : ¬ occursIn pw ("Running Terraform in " ++ ws ++ " (DRY_RUN=" ++ "True") :=
          pwFree_append_L hpw (lastChar_helper '=' rfl (by decide)) h2
            (not_occursIn_of_no_run hlen hpw
              (by decide : hasRun16 ("True" : String).data = false))
        exact pwFree_append_R hpw (by decide) h3
          (not_occursIn_of_no_run hlen hpw (by decide : hasRun16 (")" : String).data = false))
      unfold runTerraformWorkflow
      by_cases h1 : (runTerraform tool fs ws initCmd).1.success
      · by_cases h2 : (runTerraform tool fs ws planCmd).1.success
        · simp only [h1, h2, if_true, if_pos rfl]
          refine ⟨?_, hdry, hempty⟩
          exact eventsSafe_cons_logged hlog0
            (eventsSafe_append (eventsSafe_append hinit hplan)
              (eventsSafe_cons_logged
                (not_occursIn_of_no_run hlen hpw
                  (by decide :
                    hasRun16 ("DRY RUN MODE: Skipping terraform apply" : String).data = false))
                (eventsSafe_nil pw)))
        · simp only [h1, h2, if_true, Bool.false_eq_true, reduceIte]
          refine ⟨?_, hempty, herr_plan⟩
          exact eventsSafe_cons_logged hlog0 (eventsSafe_append hinit hplan)
      · simp only [h1, Bool.false_eq_true, reduceIte]
        refine ⟨?_, hempty, herr_init⟩
        exact eventsSafe_cons_logged hlog0 hinit
  | false =>
      have hlog0 : ¬ occursIn pw
          ("Running Terraform in " ++ ws ++ " (DRY_RUN=" ++ "False" ++ ")") := by
        have h1 : ¬ occursIn pw ("Running Terraform in " ++ ws) :=
          pwFree_append_L hpw (by decide)
            (not_occursIn_of_no_run hlen hpw
              (by decide : hasRun16 ("Running Terraform in " : String).data = false)) hws
        have h2 : ¬ occursIn pw ("Running Terraform in " ++ ws ++ " (DRY_RUN=") :=
          pwFree_append_R hpw (by decide) h1
            (not_occursIn_of_no_run hlen hpw
              (by decide : hasRun16 (" (DRY_RUN=" : String).data = false))
        have h3 : ¬ occursIn pw ("Running Terraform in " ++ ws ++ " (DRY_RUN=" ++ "False") :=
          pwFree_append_L hpw (lastChar_helper '=' rfl (by decide)) h2
            (not_occursIn_of_no_run hlen hpw
              (by decide : hasRun16 ("False" : String).data = false))
        exact pwFree_append_R hpw (by decide) h3
          (not_occursIn_of_no_run hlen hpw (by decide : hasRun16 (")" : String).data = false))
      unfold runTerraformWorkflow
      by_cases h1 : (runTerraform tool fs ws initCmd).1.success
      · by_cases h2 : (runTerraform tool fs ws planCmd).1.success
        · by_cases h3 : (runTerraform tool fs ws applyCmd).1.success
          · by_cases h4 : (runTerraform tool fs ws outputCmd).1.success
            · simp only [h1, h2, h3, h4, if_true, Bool.false_eq_true, reduceIte]
              refine ⟨?_, ?_, hempty⟩
              · exact eventsSafe_cons_logged hlog0
                  (eventsSafe_append (eventsSafe_append (eventsSafe_append hinit hplan)
                    happly) houtput)
              · exact runTerraform_fmtOutput_safe hlen hpw htool fs ws outputCmd
            · simp only [h1, h2, h3, h4, if_true, Bool.false_eq_true, reduceIte]
              refine ⟨?_, hempty, hempty⟩
              exact eventsSafe_cons_logged hlog0
                (eventsSafe_append (eventsSafe_append (eventsSafe_append hinit hplan)
                  happly) houtput)
          · simp only [h1, h2, h3, if_true, Bool.false_eq_true, reduceIte]
            refine ⟨?_, hempty, herr_apply⟩
            exact eventsSafe_cons_logged hlog0
              (eventsSafe_append (eventsSafe_append hinit hplan) happly)
        · simp only [h1, h2, if_true, Bool.false_eq_true, reduceIte]
          refine ⟨?_, hempty, herr_plan⟩
          exact eventsSafe_cons_logged hlog0 (eventsSafe_append hinit hplan)
      · simp only [h1, Bool.false_eq_true, reduceIte]
        refine ⟨?_, hempty, herr_init⟩
        exact eventsSafe_cons_logged hlog0 hinit

/-- A trace whose log lines never contain the secret and whose file writes
carry the secret only into the variable-values file `tfvarsPath`. -/
abbrev traceSafe (pw tfvarsPath : String) (evs : List Event) : Prop :=
  (∀ m, Event.logged m ∈ evs → ¬ occursIn pw m) ∧
  (∀ p c, Event.fileWritten p c ∈ evs → occursIn pw c → p = tfvarsPath)

theorem traceSafe_of_eventsSafe {pw tp : String} {evs : List Event}
    (h : eventsSafe pw evs) : traceSafe pw tp evs :=
  ⟨h.1, fun p c hc _ => absurd hc (h.2 p c)⟩

theorem traceSafe_nil (pw tp : String) : traceSafe pw tp [] :=
  traceSafe_of_eventsSafe (eventsSafe_nil pw)

theorem traceSafe_append {pw tp : String} {a b : List Event}
    (ha : traceSafe pw tp a) (hb : traceSafe pw tp b) : traceSafe pw tp (a ++ b) :=
  ⟨fun m hm => (List.mem_append.mp hm).elim (ha.1 m) (hb.1 m),
   fun p c hc => (List.mem_append.mp hc).elim (ha.2 p c) (hb.2 p c)⟩

theorem traceSafe_cons_mkdir {pw tp path : String} {l : List Event}
    (hl : traceSafe pw tp l) : traceSafe pw tp (.mkdirWorkspace path :: l) := by
  constructor
  · intro m hm
    rcases List.mem_cons.mp hm with h | h
    · cases h
    · exact hl.1 m h
  · intro p c hc
    rcases List.mem_cons.mp hc with h | h
    · cases h
    · exact hl.2 p c h

theorem traceSafe_cons_file_clean {pw tp path content : String} {l : List Event}
    (hcontent : ¬ occursIn pw content) (hl : traceSafe pw tp l) :
    traceSafe pw tp (.fileWritten path content :: l) := by
  constructor
  · intro m hm
    rcases List.mem_cons.mp hm with h | h
    · cases h
    · exact hl.1 m h
  · intro p c hc
    rcases List.mem_cons.mp hc with h | h
    · injection h with h1 h2
      subst h1; subst h2
      intro hocc
      exact absurd hocc hcontent
    · exact hl.2 p c h

theorem traceSafe_cons_file_tfvars {pw tp content : String} {l : List Event}
    (hl : traceSafe pw tp l) : traceSafe pw tp (.fileWritten tp content :: l) := by
  constructor
  · intro m hm
    rcases List.mem_cons.mp hm with h | h
    · cases h
    · exact hl.1 m h
  · intro p c hc
    rcases List.mem_cons.mp hc with h | h
    · injection h with h1 h2
      subst h1
      intro _
      rfl
    · exact hl.2 p c h

set_option maxRecDepth 16384 in
theorem dbMainTf_safe {pw : String} (hlen : pw.data.length = 16) (hpw : pwAlnum pw)
    {modulesPath : String} (hmod : ¬ occursIn pw modulesPath) :
    ¬ occursIn pw (dbMainTf modulesPath) := by
  unfold dbMainTf
  have h1 : ¬ occursIn pw ("\nmodule \"database\" \x7b\n  source = \"" ++ modulesPath) :=
    pwFree_append_L hpw (by decide)
      (not_occursIn_of_no_run hlen hpw
        (by decide :
          hasRun16 ("\nmodule \"database\" \x7b\n  source = \"" : String).data = false))
      hmod
  exact pwFree_append_R hpw (by decide) h1
    (not_occursIn_of_no_run hlen hpw
      (by decide :
        hasRun16 ("/database\"\n\n  name             = var.name\n  engine           = var.engine\n  instance_class   = var.instance_class\n  username         = var.username\n  password         = var.password\n\x7d\n" : String).data = false))

/-- The secret really is embedded in the generated variable-values text. -/
theorem dbTfvars_contains_password (name engine instanceClass password : String) :
    occursIn password (dbTfvars name engine instanceClass password) :=
  occursIn_of_left (occursIn_of_right (occursIn_self password))

set_option maxRecDepth 16384 in
theorem provisionDatabase_safe (cfg : TfConfig) {tool : ToolBehavior} (rng : Nat → Nat)
    (fs : FS) (req : Request)
    (htool : toolSafe (generatePassword rng 16) tool)
    (hws : ¬ occursIn (generatePassword rng 16)
      (workspacePath cfg.workspacesRoot req.id))
    (hmod : ¬ occursIn (generatePassword rng 16) cfg.modulesPath) :
    traceSafe (generatePassword rng 16)
      (workspacePath cfg.workspacesRoot req.id ++ "/terraform.tfvars")
      (provisionDatabase cfg tool rng fs req).2.2 ∧
    ¬ occursIn (generatePassword rng 16) (provisionDatabase cfg tool rng fs req).1.output ∧
    ¬ occursIn (generatePassword rng 16) (provisionDatabase cfg tool rng fs req).1.error ∧
    Event.fileWritten (workspacePath cfg.workspacesRoot req.id ++ "/terraform.tfvars")
      (dbTfvars req.name (dictGet (req.config.getD []) "engine" "postgres")
        ((sizeMapping (dictGet (req.config.getD []) "size" "small")).getD "db.t3.micro")
        (generatePassword rng 16)) ∈ (provisionDatabase cfg tool rng fs req).2.2 ∧
    occursIn (generatePassword rng 16)
      (dbTfvars req.name (dictGet (req.config.getD []) "engine" "postgres")
        ((sizeMapping (dictGet (req.config.getD []) "size" "small")).getD "db.t3.micro")
        (generatePassword rng 16)) := by
  have hlen := generatePassword_length rng
  have hpw := generatePassword_alnum rng
  have hprov : ¬ occursIn (generatePassword rng 16) awsProviderTf :=
    not_occursIn_of_no_run hlen hpw (by decide : hasRun16 awsProviderTf.data = false)
  have hmain := dbMainTf_safe hlen hpw hmod
  refine ⟨?_, ?_, ?_, ?_, dbTfvars_contains_password _ _ _ _⟩
  · exact traceSafe_append
      (traceSafe_append
        (traceSafe_append
          (traceSafe_cons_mkdir (traceSafe_nil _ _))
          (traceSafe_cons_file_clean hprov (traceSafe_nil _ _)))
        (traceSafe_cons_file_clean hmain
          (traceSafe_cons_file_tfvars (traceSafe_nil _ _))))
      (traceSafe_of_eventsSafe
        (workflow_safe hlen hpw cfg.dryRunMode htool _ _ hws).1)
  · exact (workflow_safe hlen hpw cfg.dryRunMode htool _ _ hws).2.1
  · exact (workflow_safe hlen hpw cfg.dryRunMode htool _ _ hws).2.2
  · exact List.mem_append_left _
      (List.mem_append_right _ (List.mem_cons_of_mem _ (List.mem_cons_self _ _)))

theorem provisionRescue_safe (f : Faults) (store : Store) (fs : FS) (requestId : Nat)
    (evs : List Event) {pw : String} (tp : String) (hlen : pw.data.length = 16)
    (hpw : pwAlnum pw)
    (hevs_log : ∀ m, Event.logged m ∈ evs → ¬ occursIn pw m)
    (hevs_file : ∀ p c, Event.fileWritten p c ∈ evs → occursIn pw c → p = tp)
    (herrlog : ¬ occursIn pw ("Error provisioning request " ++ natDecimal requestId ++
      ": " ++ f.faultMsg))
    (hnotes : ∀ r, store requestId = some r → ¬ occursIn pw (r.admin_notes.getD ""))
    (hfault : ¬ occursIn pw f.faultMsg) :
    (∀ m, Event.logged m ∈ (provisionRescue f store fs requestId evs).events →
      ¬ occursIn pw m) ∧
    (∀ r', (provisionRescue f store fs requestId evs).store requestId = some r' →
      ¬ occursIn pw (r'.admin_notes.getD "")) ∧
    (∀ p c, Event.fileWritten p c ∈ (provisionRescue f store fs requestId evs).events →
      occursIn pw c → p = tp) := by
  have hlogs : ∀ m, Event.logged m ∈ evs ++
      [Event.logged ("Error provisioning request " ++ natDecimal requestId ++
        ": " ++ f.faultMsg)] → ¬ occursIn pw m := by
    intro m hm
    rcases List.mem_append.mp hm with h | h
    · exact hevs_log m h
    · rcases List.mem_singleton.mp h with h
      injection h with h
      rw [h]
      exact herrlog
  have hfiles : ∀ p c, Event.fileWritten p c ∈ evs ++
      [Event.logged ("Error provisioning request " ++ natDecimal requestId ++
        ": " ++ f.faultMsg)] → occursIn pw c → p = tp := by
    intro p c hc
    rcases List.mem_append.mp hc with h | h
    · exact hevs_file p c h
    · rcases List.mem_singleton.mp h with h
      cases h
  unfold provisionRescue
  by_cases hr : f.rescueFails
  · simp only [hr, if_true, if_pos rfl]
    exact ⟨hlogs, fun r' hr' => hnotes r' hr', hfiles⟩
  · simp only [hr, Bool.false_eq_true, reduceIte]
    cases hs : store requestId with
    | none => exact ⟨hlogs, fun r' hr' => hnotes r' hr', hfiles⟩
    | some r =>
        refine ⟨hlogs, ?_, hfiles⟩
        intro r' hr'
        simp only [setReq, if_pos rfl] at hr'
        injection hr' with hr'
        rw [← hr']
        dsimp only
        simp only [Option.getD_some]
        have hbase := hnotes r hs
        have q1 : ¬ occursIn pw ((r.admin_notes.getD "") ++ "\n\nProvisioning error: ") :=
          pwFree_append_R hpw (by decide) hbase
            (not_occursIn_of_no_run hlen hpw
              (by decide : hasRun16 ("\n\nProvisioning error: " : String).data = false))
        exact pwFree_append_L hpw (lastChar_helper ' ' rfl (by decide)) q1 hfault

/-- C9 amended: the master password is produced by the CSPRNG oracle over
the fixed alphanumeric alphabet at the fixed length 16; along every path of
`provision_resource` it is written only into the generated
`terraform.tfvars` file (which, on a claimed database run, really receives
it), and — provided the secret does not occur in the tool's captured texts,
in the prior notes, in the workspace path, in the modules path or in the
fault message, the code performing no sanitization of its own — it occurs
in no log line and never in the notes committed to the store. -/
theorem passwordOnlyInTfvars (cfg : TfConfig) (f : Faults) {tool : ToolBehavior}
    (rng : Nat → Nat) (store : Store) (fs : FS) (requestId : Nat) (req : Request)
    (hreq : store requestId = some req) (hdb : req.resource_type = "database")
    (hid : req.id = requestId)
    (htool : toolSafe (generatePassword rng 16) tool)
    (hnotes : ¬ occursIn (generatePassword rng 16) (req.admin_notes.getD ""))
    (hws : ¬ occursIn (generatePassword rng 16)
      (workspacePath cfg.workspacesRoot requestId))
    (hmod : ¬ occursIn (generatePassword rng 16) cfg.modulesPath)
    (hfault : ¬ occursIn (generatePassword rng 16) f.faultMsg) :
    ((generatePassword rng 16).data.length = 16 ∧ pwAlnum (generatePassword rng 16)) ∧
    (∀ m, Event.logged m ∈ (provisionResource cfg f tool rng store fs requestId).events →
      ¬ occursIn (generatePassword rng 16) m) ∧
    (∀ req', (provisionResource cfg f tool rng store fs requestId).store requestId =
      some req' → ¬ occursIn (generatePassword rng 16) (req'.admin_notes.getD "")) ∧
    (∀ p c,
      Event.fileWritten p c ∈ (provisionResource cfg f tool rng store fs requestId).events →
      occursIn (generatePassword rng 16) c →
      p = workspacePath cfg.workspacesRoot requestId ++ "/terraform.tfvars") ∧
    (req.status = "approved" → f.fetchFails = false → f.claimCommitFails = false →
      f.generatorRaises = false →
      Event.fileWritten (workspacePath cfg.workspacesRoot requestId ++ "/terraform.tfvars")
          (dbTfvars req.name (dictGet (req.config.getD []) "engine" "postgres")
            ((sizeMapping (dictGet (req.config.getD []) "size" "small")).getD "db.t3.micro")
            (generatePassword rng 16)) ∈
        (provisionResource cfg f tool rng store fs requestId).events ∧
      occursIn (generatePassword rng 16)
        (dbTfvars req.name (dictGet (req.config.getD []) "engine" "postgres")
          ((sizeMapping (dictGet (req.config.getD []) "size" "small")).getD "db.t3.micro")
          (generatePassword rng 16))) := by
  subst hid
  have hlen := generatePassword_length rng
  have hpw := generatePassword_alnum rng
  have hnat : ¬ occursIn (generatePassword rng 16) (natDecimal req.id) :=
    fun h => hws (occursIn_of_right h)
  have herrlog : ¬ occursIn (generatePassword rng 16)
      ("Error provisioning request " ++ natDecimal req.id ++ ": " ++ f.faultMsg) := by
    have q1 : ¬ occursIn (generatePassword rng 16)
        ("Error provisioning request " ++ natDecimal req.id) :=
      pwFree_append_L hpw (by decide)
        (not_occursIn_of_no_run hlen hpw
          (by decide : hasRun16 ("Error provisioning request " : String).data = false)) hnat
    have q2 := pwFree_append_R hpw (by decide) q1
      (not_occursIn_of_no_run hlen hpw (by decide : hasRun16 (": " : String).data = false))
    exact pwFree_append_L hpw (lastChar_helper ' ' rfl (by decide)) q2 hfault
  have hskiplog : ¬ occursIn (generatePassword rng 16)
      ("Request " ++ natDecimal req.id ++ " is not approved, skipping") := by
    have q1 : ¬ occursIn (generatePassword rng 16) ("Request " ++ natDecimal req.id) :=
      pwFree_append_L hpw (by decide)
        (not_occursIn_of_no_run hlen hpw
          (by decide : hasRun16 ("Request " : String).data = false)) hnat
    exact pwFree_append_R hpw (by decide) q1
      (not_occursIn_of_no_run hlen hpw
        (by decide : hasRun16 (" is not approved, skipping" : String).data = false))
  have hstart : ¬ occursIn (generatePassword rng 16) "Starting provisioning..." :=
    not_occursIn_of_no_run hlen hpw
      (by decide : hasRun16 ("Starting provisioning..." : String).data = false)
  have hnotesfn : ∀ r, store req.id = some r →
      ¬ occursIn (generatePassword rng 16) (r.admin_notes.getD "") := by
    intro r hr
    rw [hreq] at hr
    injection hr with hr
    rw [← hr]
    exact hnotes
  have hdisp : provisionByType cfg tool rng fs req = provisionDatabase cfg tool rng fs req := by
    unfold provisionByType
    simp [hdb]
  have pd0 := provisionDatabase_safe cfg rng fs req htool hws hmod
  rw [← hdisp] at pd0
  have hNsucc : ¬ occursIn (generatePassword rng 16) ((req.admin_notes.getD "") ++
      "\n\nProvisioned successfully:\n" ++ (provisionByType cfg tool rng fs req).1.output) := by
    have q1 := pwFree_append_R hpw (by decide) hnotes
      (not_occursIn_of_no_run hlen hpw
        (by decide : hasRun16 ("\n\nProvisioned successfully:\n" : String).data = false))
    exact pwFree_append_L hpw (lastChar_helper '\n' rfl (by decide)) q1 pd0.2.1
  have hNfail : ¬ occursIn (generatePassword rng 16) ((req.admin_notes.getD "") ++
      "\n\nProvisioning failed:\n" ++ (provisionByType cfg tool rng fs req).1.error) := by
    have q1 := pwFree_append_R hpw (by decide) hnotes
      (not_occursIn_of_no_run hlen hpw
        (by decide : hasRun16 ("\n\nProvisioning failed:\n" : String).data = false))
    exact pwFree_append_L hpw (lastChar_helper '\n' rfl (by decide)) q1 pd0.2.2.1
  refine ⟨⟨hlen, hpw⟩, ?_⟩
  by_cases hf : f.fetchFails = true
  · have hP : provisionResource cfg f tool rng store fs req.id =
        provisionRescue f store fs req.id [] := by
      unfold provisionResource
      simp [hf]
    rw [hP]
    have hrs := provisionRescue_safe f store fs req.id []
      (workspacePath cfg.workspacesRoot req.id ++ "/terraform.tfvars") hlen hpw
      (fun m hm => absurd hm (List.not_mem_nil _))
      (fun p c hc => absurd hc (List.not_mem_nil _))
      herrlog hnotesfn hfault
    refine ⟨hrs.1, hrs.2.1, hrs.2.2, ?_⟩
    intro _ hf0 _ _
    rw [hf0] at hf
    exact absurd hf (by decide)
  · have hf' : f.fetchFails = false := by
      cases hb : f.fetchFails with
      | false => rfl
      | true => exact absurd hb hf
    by_cases happ : req.status = "approved"
    · by_cases hcl : f.claimCommitFails = true
      · have hP : provisionResource cfg f tool rng store fs req.id =
            provisionRescue f store fs req.id [.logged "Starting provisioning..."] := by
          unfold provisionResource
          simp [hf', hreq, happ, hcl]
        rw [hP]
        have hevlog : ∀ m, Event.logged m ∈
            ([.logged "Starting provisioning..."] : List Event) →
            ¬ occursIn (generatePassword rng 16) m := by
          intro m hm
          rcases List.mem_singleton.mp hm with h
          injection h with h
          rw [h]
          exact hstart
        have hrs := provisionRescue_safe f store fs req.id
          [.logged "Starting provisioning..."]
          (workspacePath cfg.workspacesRoot req.id ++ "/terraform.tfvars") hlen hpw hevlog
          (fun p c hc => by rcases List.mem_singleton.mp hc with h; cases h)
          herrlog hnotesfn hfault
        refine ⟨hrs.1, hrs.2.1, hrs.2.2, ?_⟩
        intro _ _ hcl0 _
        rw [hcl0] at hcl
        exact absurd hcl (by decide)
      · have hcl' : f.claimCommitFails = false := by
          cases hb : f.claimCommitFails with
          | false => rfl
          | true => exact absurd hb hcl
        have hnotesfn1 : ∀ r,
            setReq store req.id { req with status := "provisioning" } req.id = some r →
            ¬ occursIn (generatePassword rng 16) (r.admin_notes.getD "") := by
          intro r hr
          simp only [setReq, if_pos rfl] at hr
          injection hr with hr
          rw [← hr]
          exact hnotes
        by_cases hg : f.generatorRaises = true
        · have hP : provisionResource cfg f tool rng store fs req.id =
              provisionRescue f (setReq store req.id { req with status := "provisioning" })
                fs req.id [.logged "Starting provisioning..."] := by
            unfold provisionResource
            simp [hf', hreq, happ, hcl', hg]
          rw [hP]
          have hevlog : ∀ m, Event.logged m ∈
              ([.logged "Starting provisioning..."] : List Event) →
              ¬ occursIn (generatePassword rng 16) m := by
            intro m hm
            rcases List.mem_singleton.mp hm with h
            injection h with h
            rw [h]
            exact hstart
          have hrs := provisionRescue_safe f
            (setReq store req.id { req with status := "provisioning" }) fs req.id
            [.logged "Starting provisioning..."]
            (workspacePath cfg.workspacesRoot req.id ++ "/terraform.tfvars") hlen hpw hevlog
            (fun p c hc => by rcases List.mem_singleton.mp hc with h; cases h)
            herrlog hnotesfn1 hfault
          refine ⟨hrs.1, hrs.2.1, hrs.2.2, ?_⟩
          intro _ _ _ hg0
          rw [hg0] at hg
          exact absurd hg (by decide)
        · have hg' : f.generatorRaises = false := by
            cases hb : f.generatorRaises with
            | false => rfl
            | true => exact absurd hb hg
          have hevlog2 : ∀ m, Event.logged m ∈
              (.logged "Starting provisioning..." ::
                (provisionByType cfg tool rng fs req).2.2) →
              ¬ occursIn (generatePassword rng 16) m := by
            intro m hm
            rcases List.mem_cons.mp hm with h | h
            · injection h with h
              rw [h]
              exact hstart
            · exact pd0.1.1 m h
          have hevfile2 : ∀ p c, Event.fileWritten p c ∈
              (.logged "Starting provisioning..." ::
                (provisionByType cfg tool rng fs req).2.2) →
              occursIn (generatePassword rng 16) c →
              p = workspacePath cfg.workspacesRoot req.id ++ "/terraform.tfvars" := by
            intro p c hc
            rcases List.mem_cons.mp hc with h | h
            · cases h
            · exact pd0.1.2 p c h
          have hmem2 : Event.fileWritten
              (workspacePath cfg.workspacesRoot req.id ++ "/terraform.tfvars")
              (dbTfvars req.name (dictGet (req.config.getD []) "engine" "postgres")
                ((sizeMapping (dictGet (req.config.getD []) "size" "small")).getD
                  "db.t3.micro")
                (generatePassword rng 16)) ∈
              (.logged "Starting provisioning..." ::
                (provisionByType cfg tool rng fs req).2.2) :=
            List.mem_cons_of_mem _ pd0.2.2.2.1
          by_cases hfc : f.finalCommitFails = true
          · have hP : provisionResource cfg f tool rng store fs req.id =
                provisionRescue f
                  (setReq store req.id { req with status := "provisioning" })
                  (provisionByType cfg tool rng fs req).2.1 req.id
                  (.logged "Starting provisioning..." ::
                    (provisionByType cfg tool rng fs req).2.2) := by
              unfold provisionResource
              simp [hf', hreq, happ, hcl', hg', hfc]
            rw [hP]
            have hrs := provisionRescue_safe f
              (setReq store req.id { req with status := "provisioning" })
              (provisionByType cfg tool rng fs req).2.1 req.id
              (.logged "Starting provisioning..." ::
                (provisionByType cfg tool rng fs req).2.2)
              (workspacePath cfg.workspacesRoot req.id ++ "/terraform.tfvars") hlen hpw hevlog2 hevfile2
              herrlog hnotesfn1 hfault
            refine ⟨hrs.1, hrs.2.1, hrs.2.2, ?_⟩
            intro _ _ _ _
            refine ⟨?_, dbTfvars_contains_password _ _ _ _⟩
            unfold provisionRescue
            by_cases hr : f.rescueFails = true
            · simp only [hr, if_pos rfl]
              exact List.mem_append_left _ hmem2
            · simp only [hr, Bool.false_eq_true, reduceIte]
              cases hsr : setReq store req.id { req with status := "provisioning" } req.id
              · exact List.mem_append_left _ hmem2
              · exact List.mem_append_left _ hmem2
          · have hfc' : f.finalCommitFails = false := by
              cases hb : f.finalCommitFails with
              | false => rfl
              | true => exact absurd hb hfc
            cases hsucc : (provisionByType cfg tool rng fs req).1.success with
            | true =>
                have hP : provisionResource cfg f tool rng store fs req.id =
                    { outcome := .finished (provisionByType cfg tool rng fs req).1,
                      store := setReq
                        (setReq store req.id { req with status := "provisioning" }) req.id
                        { req with
                          status := "provisioned",
                          admin_notes := some ((req.admin_notes.getD "") ++
                            "\n\nProvisioned successfully:\n" ++
                            (provisionByType cfg tool rng fs req).1.output) },
                      fs := (provisionByType cfg tool rng fs req).2.1,
                      events := .logged "Starting provisioning..." ::
                        (provisionByType cfg tool rng fs req).2.2 } := by
                  unfold provisionResource
                  simp [hf', hreq, happ, hcl', hg', hfc', hsucc]
                rw [hP]
                refine ⟨hevlog2, ?_, hevfile2, ?_⟩
                · intro r' hr'
                  simp only [setReq, if_pos rfl] at hr'
                  injection hr' with hr'
                  rw [← hr']
                  dsimp only
                  simp only [Option.getD_some]
                  exact hNsucc
                · intro _ _ _ _
                  exact ⟨hmem2, dbTfvars_contains_password _ _ _ _⟩
            | false =>
                have hP : provisionResource cfg f tool rng store fs req.id =
                    { outcome := .finished (provisionByType cfg tool rng fs req).1,
                      store := setReq
                        (setReq store req.id { req with status := "provisioning" }) req.id
                        { req with
                          status := "failed",
                          admin_notes := some ((req.admin_notes.getD "") ++
                            "\n\nProvisioning failed:\n" ++
                            (provisionByType cfg tool rng fs req).1.error) },
                      fs := (provisionByType cfg tool rng fs req).2.1,
                      events := .logged "Starting provisioning..." ::
                        (provisionByType cfg tool rng fs req).2.2 } := by
                  unfold provisionResource
                  simp [hf', hreq, happ, hcl', hg', hfc', hsucc]
                rw [hP]
                refine ⟨hevlog2, ?_, hevfile2, ?_⟩
                · intro r' hr'
                  simp only [setReq, if_pos rfl] at hr'
                  injection hr' with hr'
                  rw [← hr']
                  dsimp only
                  simp only [Option.getD_some]
                  exact hNfail
                · intro _ _ _ _
                  exact ⟨hmem2, dbTfvars_contains_password _ _ _ _⟩
    · have hP := provisionResource_skip_helper cfg f tool rng store fs req.id req
        hf' hreq happ
      rw [hP]
      refine ⟨?_, ?_, ?_, ?_⟩
      · intro m hm
        rcases List.mem_singleton.mp hm with h
        injection h with h
        rw [h]
        exact hskiplog
      · intro r' hr'
        dsimp only at hr'
        rw [hreq] at hr'
        injection hr' with hr'
        rw [← hr']
        exact hnotes
      · intro p c hc
        rcases List.mem_singleton.mp hc with h
        cases h
      · intro he _ _ _
        exact absurd he happ

/-- A tool behavior that fails and echoes the workspace's variable-values
file back on stderr — terraform reading the tfvars it was given. -/
def echoTool : ToolBehavior := fun fs ws _cmd =>
  .completed 1 ""
    (match fs.files.find? (fun p => p.1 == ws ++ "/terraform.tfvars") with
     | some p => p.2
     | none => "")

set_option maxRecDepth 100000 in
/-- C9 counterexample: the code performs no sanitization of tool-captured
text, so when the tool's stderr echoes the variable-values file, the
generated master password lands verbatim in the request's notes and in a
log line — refuting "never appears in any log output or in any text
appended to the request's notes". -/
theorem password_leak_counterexample :
    occursIn (generatePassword zeroRng 16)
      ((((provisionResource {} {} echoTool zeroRng sampleStore {} 1).store 1).map
        (fun r => r.admin_notes.getD "")).getD "") ∧
    ((provisionResource {} {} echoTool zeroRng sampleStore {} 1).events.any
      (fun e => match e with
        | .logged m => decide (occursIn (generatePassword zeroRng 16) m)
        | _ => false)) = true := by
  decide

set_option maxRecDepth 100000 in
/-- Witness for C9 amended at concrete inputs. -/
theorem passwordOnlyInTfvars_witness :
    (generatePassword zeroRng 16).data.length = 16 ∧
    Event.fileWritten (workspacePath ({} : TfConfig).workspacesRoot 1 ++ "/terraform.tfvars")
        (dbTfvars sampleDbRequest.name "postgres" "db.t3.micro"
          (generatePassword zeroRng 16)) ∈
      (provisionResource {} {} okTool zeroRng sampleStore {} 1).events ∧
    occursIn (generatePassword zeroRng 16)
      (dbTfvars sampleDbRequest.name "postgres" "db.t3.micro"
        (generatePassword zeroRng 16)) := by
  have htool : toolSafe (generatePassword zeroRng 16) okTool := by
    intro fs ws cmd rc out err h
    injection h with h1 h2 h3
    subst h2
    subst h3
    exact ⟨by decide, by decide⟩
  have h := passwordOnlyInTfvars {} {} zeroRng sampleStore {} 1 sampleDbRequest
    rfl rfl rfl htool (by decide) (by decide) (by decide) (by decide)
  exact ⟨h.1.1, (h.2.2.2.2 rfl rfl rfl rfl).1, (h.2.2.2.2 rfl rfl rfl rfl).2⟩
